import Mathlib

set_option maxRecDepth 8000

/-!
Shallow embedding of the appgrid-backend webhook/licensing core
(retry helper, webhook idempotency coordinator, Paddle purchase flow,
license validation, email delivery queue, RevenueCat migration), with
theorems settling the spec claims about it.
-/

namespace AppGrid

instance {ε α : Type} [DecidableEq ε] [DecidableEq α] : DecidableEq (Except ε α) :=
  fun x y =>
    match x, y with
    | .ok a, .ok b => if h : a = b then isTrue (by rw [h]) else isFalse (by simp [h])
    | .error a, .error b => if h : a = b then isTrue (by rw [h]) else isFalse (by simp [h])
    | .ok _, .error _ => isFalse (by simp)
    | .error _, .ok _ => isFalse (by simp)

/-! Retry helper, from the `retry` function (src/unnamed/part_004).
The wrapped async operation is modelled as a function from the 1-indexed
attempt number to that attempt's outcome; the `onRetry` hook and the
backoff sleeps are recorded as an ordered event trace. -/

namespace Retry

/-- Observable effects of the retry loop, in order: an `onRetry` hook call,
and the backoff sleep that follows it. -/
inductive RetryEvent (E : Type) where
  | hook (attempt : Nat) (err : E)
  | wait (delayMs : Nat)
  deriving DecidableEq, Repr

/-- Return value of the retry helper together with its event trace. -/
structure RetryResult (E T : Type) where
  outcome : Except E T
  events : List (RetryEvent E)
  deriving Repr

/-- Options of the retry helper with the source's defaults
(maxAttempts 3, baseDelayMs 1000, maxDelayMs 10000, shouldRetry always true). -/
structure RetryOptions (E : Type) where
  maxAttempts : Nat := 3
  baseDelayMs : Nat := 1000
  maxDelayMs : Nat := 10000
  shouldRetry : E → Bool := fun _ => true

/-- Loop body of `retry`: `attempt` is the 1-indexed attempt number and
`fuel` the number of attempts still allowed after this one
(`fuel = 0` models `attempt === maxAttempts`, the last allowed attempt). -/
def retryGo (fn : Nat → Except E T) (shouldRetry : E → Bool)
    (baseDelayMs maxDelayMs : Nat) (attempt : Nat) (fuel : Nat) : RetryResult E T :=
  match fn attempt with
  | .ok v => ⟨.ok v, []⟩
  | .error e =>
    match fuel with
    | 0 => ⟨.error e, []⟩
    | fuel' + 1 =>
      if shouldRetry e then
        let delay := min (baseDelayMs * 2 ^ (attempt - 1)) maxDelayMs
        let rest := retryGo fn shouldRetry baseDelayMs maxDelayMs (attempt + 1) fuel'
        ⟨rest.outcome, .hook attempt e :: .wait delay :: rest.events⟩
      else ⟨.error e, []⟩

/-- Model of `retry`: run the loop from attempt 1 with `maxAttempts - 1`
further attempts allowed. -/
def retry (fn : Nat → Except E T) (opts : RetryOptions E) : RetryResult E T :=
  retryGo fn opts.shouldRetry opts.baseDelayMs opts.maxDelayMs 1 (opts.maxAttempts - 1)

/-- Backoff delay after a failed attempt: min(base × 2^(attempt-1), cap). -/
def backoffDelay (baseDelayMs maxDelayMs attempt : Nat) : Nat :=
  min (baseDelayMs * 2 ^ (attempt - 1)) maxDelayMs

/-- Expected event trace of `cnt` consecutive retried failures starting at
attempt number `start`: hook call then wait, for each failed attempt. -/
def failEvents (errs : Nat → E) (baseDelayMs maxDelayMs start : Nat) :
    Nat → List (RetryEvent E)
  | 0 => []
  | n + 1 =>
    .hook start (errs start) :: .wait (backoffDelay baseDelayMs maxDelayMs start) ::
      failEvents errs baseDelayMs maxDelayMs (start + 1) n

end Retry

/-! Email delivery queue, from src/src/services/email-queue.service.ts.
Time is Unix milliseconds; the Mailgun transport call is modelled by its
outcome, and the metadata blob is an opaque type parameter M. -/

namespace EmailQueue

inductive EmailStatus where
  | PENDING
  | SENDING
  | SENT
  | RETRYING
  | FAILED
  deriving DecidableEq, Repr

structure Row (M : Type) where
  id : Nat
  «to» : String
  subject : String
  textContent : String
  htmlContent : String
  status : EmailStatus
  attempts : Nat
  maxAttempts : Nat
  metadata : Option M := none
  nextRetryAt : Nat
  lastError : Option String := none
  lastAttemptAt : Option Nat := none
  sentAt : Option Nat := none
  messageId : Option String := none
  deriving DecidableEq, Repr

structure QState (M : Type) where
  rows : List (Row M)
  nextId : Nat
  deriving DecidableEq, Repr

structure QueueEmailOptions (M : Type) where
  «to» : String
  subject : String
  textContent : String
  htmlContent : String
  metadata : Option M := none
  maxAttempts : Option Nat := none

/-- Outcome of one call of the email transport (`emailService.sendRawEmail`):
a result with success true, a result with success false carrying an optional
error string, or a thrown exception. -/
inductive TransportResult where
  | success (messageId : String)
  | failure (error : Option String)
  | thrown (message : String)
  deriving DecidableEq, Repr

def findRow (id : Nat) (rows : List (Row M)) : Option (Row M) :=
  rows.find? (fun r => r.id == id)

def updateRow (id : Nat) (f : Row M → Row M) (rows : List (Row M)) : List (Row M) :=
  rows.map (fun r => if r.id == id then f r else r)

/-- Model of `EmailQueueService.queueEmail`: persist a PENDING row with
attempts 0, maxAttempts defaulting to 5 (JS `||`, so an explicit 0 also
becomes 5), and next-retry-at = now. -/
def queueEmail (now : Nat) (o : QueueEmailOptions M) (st : QState M) :
    Row M × QState M :=
  let row : Row M :=
    { id := st.nextId, «to» := o.«to», subject := o.subject,
      textContent := o.textContent, htmlContent := o.htmlContent,
      status := .PENDING, attempts := 0,
      maxAttempts := match o.maxAttempts with | some (n + 1) => n + 1 | _ => 5,
      metadata := o.metadata, nextRetryAt := now }
  (row, ⟨st.rows ++ [row], st.nextId + 1⟩)

/-- Model of `EmailQueueService.handleEmailFailure`: when attempts remain,
set RETRYING with next-retry-at = now + schedule[min(attempts-1, 4)] minutes
from the fixed schedule 1, 5, 15, 60, 240; otherwise set FAILED with a
max-attempts message (leaving next-retry-at untouched). -/
def handleEmailFailure (now : Nat) (emailId : Nat) (errorMessage : String)
    (st : QState M) : QState M :=
  match findRow emailId st.rows with
  | none => st
  | some email =>
    if email.attempts < email.maxAttempts then
      let backoffMinutes : List Nat := [1, 5, 15, 60, 240]
      let backoffIndex := min (email.attempts - 1) (backoffMinutes.length - 1)
      let minutesToWait := backoffMinutes.getD backoffIndex 0
      let nextRetryAt := now + minutesToWait * 60 * 1000
      let upd := fun (r : Row M) =>
        { r with status := .RETRYING, lastError := some errorMessage,
                 nextRetryAt := nextRetryAt }
      { st with rows := updateRow emailId upd st.rows }
    else
      let msg := "Max attempts (" ++ toString email.maxAttempts ++
        ") reached. Last error: " ++ errorMessage
      let upd := fun (r : Row M) => { r with status := .FAILED, lastError := some msg }
      { st with rows := updateRow emailId upd st.rows }

/-- Model of `EmailQueueService.sendEmail`: re-fetch the row, no-op when the
row is missing or already SENT, otherwise mark SENDING with incremented
attempt count and stamp last-attempt-at, then run the transport, recording
success or delegating failure to `handleEmailFailure`. -/
def sendEmail (now : Nat) (transport : TransportResult) (emailId : Nat)
    (st : QState M) : QState M :=
  match findRow emailId st.rows with
  | none => st
  | some email =>
    if email.status = .SENT then st
    else
      let updSending := fun (r : Row M) =>
        { r with status := EmailStatus.SENDING, attempts := r.attempts + 1,
                 lastAttemptAt := some now }
      let st1 : QState M := { st with rows := updateRow emailId updSending st.rows }
      match transport with
      | .success messageId =>
        let updSent := fun (r : Row M) =>
          { r with status := EmailStatus.SENT, sentAt := some now,
                   messageId := some messageId, lastError := none }
        { st1 with rows := updateRow emailId updSent st1.rows }
      | .failure err => handleEmailFailure now emailId (err.getD "Unknown error") st1
      | .thrown msg => handleEmailFailure now emailId msg st1

/-- Model of `EmailQueueService.retryEmail`: look up the row (error when
missing), reset it to PENDING with attempts 0, lastError null and
next-retry-at now — with no check of its current status — then immediately
run one send attempt. -/
def retryEmail (now : Nat) (transport : TransportResult) (emailId : Nat)
    (st : QState M) : Except String (QState M) :=
  match findRow emailId st.rows with
  | none => .error "Email not found"
  | some _ =>
    let updReset := fun (r : Row M) =>
      { r with status := EmailStatus.PENDING, attempts := 0,
               lastError := none, nextRetryAt := now }
    let st1 : QState M := { st with rows := updateRow emailId updReset st.rows }
    .ok (sendEmail now transport emailId st1)

end EmailQueue

/-! License validation. The repository holds two historical variants of
LicenseService.validateLicense: the per-device-activation model
(src/src/services/license.service.ts) and the bare-counter model
(src/unnamed/part_005). Both are embedded; time is Unix milliseconds. -/

inductive LicenseStatus where
  | ACTIVE
  | EXPIRED
  | REVOKED
  | SUSPENDED
  deriving DecidableEq, Repr

/-- Model of the JS guard `license.expiresAt && new Date(license.expiresAt) <
new Date()`: expiry is set and strictly in the past. -/
def expiresBefore (expiresAt : Option Nat) (now : Nat) : Bool :=
  match expiresAt with
  | some e => decide (e < now)
  | none => false

/-- Audit row written by every validate/deactivate attempt
(`prisma.licenseValidation.create`). -/
structure ValidationLog where
  licenseId : Option Nat
  isValid : Bool
  validationMessage : String
  ipAddress : Option String := none
  userAgent : Option String := none
  deviceFingerprint : Option String := none
  deriving DecidableEq, Repr

namespace LicenseDevice

structure License where
  id : Nat
  licenseKey : String
  status : LicenseStatus
  expiresAt : Option Nat := none
  maxActivations : Nat
  activatedAt : Option Nat := none
  deriving DecidableEq, Repr

structure DeviceActivation where
  id : Nat
  licenseId : Nat
  deviceFingerprint : String
  ipAddress : Option String := none
  userAgent : Option String := none
  lastSeenAt : Option Nat := none
  deriving DecidableEq, Repr

structure LState where
  licenses : List License
  deviceActivations : List DeviceActivation
  validations : List ValidationLog
  nextId : Nat
  deriving DecidableEq, Repr

structure ValidateResult where
  valid : Bool
  license : Option License
  message : String
  deriving DecidableEq, Repr

def updateLicense (id : Nat) (f : License → License) (rows : List License) :
    List License :=
  rows.map (fun l => if l.id == id then f l else l)

def updateActivation (id : Nat) (f : DeviceActivation → DeviceActivation)
    (rows : List DeviceActivation) : List DeviceActivation :=
  rows.map (fun d => if d.id == id then f d else d)

/-- Model of LicenseService.validateLicense (device-activation variant).
The audit-log insert is modelled by its runtime effect: when the license
lookup failed, the insert violates the licenseId relation and the thrown
error is swallowed, so no audit row is appended in that case. -/
def validateLicense (now : Nat) (licenseKey : String)
    (deviceFingerprint ipAddress userAgent : Option String)
    (st : LState) : ValidateResult × LState :=
  match st.licenses.find? (fun l => l.licenseKey == licenseKey) with
  | none => (⟨false, none, "License key not found"⟩, st)
  | some license =>
    let logResult := fun (isValid : Bool) (message : String) (st1 : LState) =>
      (ValidateResult.mk isValid (if isValid then some license else none) message,
       { st1 with
         validations :=
           st1.validations ++
             [⟨some license.id, isValid, message, ipAddress, userAgent, deviceFingerprint⟩] })
    if license.status = .REVOKED then
      logResult false "License has been revoked" st
    else if license.status = .SUSPENDED then
      logResult false "License is suspended" st
    else if expiresBefore license.expiresAt now then
      let st1 := { st with licenses := updateLicense license.id (fun l => { l with status := .EXPIRED }) st.licenses }
      logResult false "License has expired" st1
    else
      match deviceFingerprint with
      | some fp =>
        let activations :=
          st.deviceActivations.filter (fun d => d.licenseId == license.id)
        match activations.find? (fun d => d.deviceFingerprint == fp) with
        | some existingActivation =>
          let st1 := { st with deviceActivations := updateActivation existingActivation.id (fun d => { d with lastSeenAt := some now }) st.deviceActivations }
          logResult true "License is valid" st1
        | none =>
          if activations.length ≥ license.maxActivations then
            logResult false "Maximum activations reached" st
          else
            let st1 := { st with
              deviceActivations :=
                st.deviceActivations ++ [⟨st.nextId, license.id, fp, ipAddress, userAgent, none⟩],
              nextId := st.nextId + 1 }
            let st2 :=
              if license.activatedAt = none then
                { st1 with licenses := updateLicense license.id (fun l => { l with activatedAt := some now }) st1.licenses }
              else st1
            logResult true "License is valid" st2
      | none => logResult true "License is valid (no device tracking)" st

end LicenseDevice

namespace LicenseCounter

structure License where
  id : Nat
  licenseKey : String
  status : LicenseStatus
  expiresAt : Option Nat := none
  maxActivations : Nat
  currentActivations : Nat
  activatedAt : Option Nat := none
  deriving DecidableEq, Repr

structure LState where
  licenses : List License
  validations : List ValidationLog
  deriving DecidableEq, Repr

structure ValidateResult where
  valid : Bool
  license : Option License
  message : String
  deriving DecidableEq, Repr

def updateLicense (id : Nat) (f : License → License) (rows : List License) :
    List License :=
  rows.map (fun l => if l.id == id then f l else l)

/-- Model of LicenseService.validateLicense (bare-counter variant,
src/unnamed/part_005), with the same audit-log modelling as the device
variant. -/
def validateLicense (now : Nat) (licenseKey : String)
    (deviceFingerprint ipAddress userAgent : Option String)
    (st : LState) : ValidateResult × LState :=
  match st.licenses.find? (fun l => l.licenseKey == licenseKey) with
  | none => (⟨false, none, "License key not found"⟩, st)
  | some license =>
    let logResult := fun (isValid : Bool) (message : String) (st1 : LState) =>
      (ValidateResult.mk isValid (if isValid then some license else none) message,
       { st1 with
         validations :=
           st1.validations ++
             [⟨some license.id, isValid, message, ipAddress, userAgent, deviceFingerprint⟩] })
    if license.status = .REVOKED then
      logResult false "License has been revoked" st
    else if license.status = .SUSPENDED then
      logResult false "License is suspended" st
    else if expiresBefore license.expiresAt now then
      let st1 := { st with licenses := updateLicense license.id (fun l => { l with status := .EXPIRED }) st.licenses }
      logResult false "License has expired" st1
    else if license.currentActivations ≥ license.maxActivations then
      logResult false "Maximum activations reached" st
    else
      let st1 :=
        if license.currentActivations = 0 then
          { st with licenses := updateLicense license.id (fun l => { l with currentActivations := l.currentActivations + 1, activatedAt := some now }) st.licenses }
        else st
      logResult true "License is valid" st1

end LicenseCounter

/-! Webhook idempotency coordinator (src/src/services/webhook.service.ts) and
the Paddle transaction.completed flow (src/unnamed/part_001). JSON values
flowing through the generic coordinator are modelled by the sum PVal of the
two shapes this flow stores and returns; calendar dates are modelled as
(year, month, remainder-within-month) with setFullYear/setMonth arithmetic. -/

namespace Webhook

inductive WebhookStatus where
  | PENDING
  | PROCESSING
  | COMPLETED
  | FAILED
  | RETRYING
  deriving DecidableEq, Repr

/-- Model of the WebhookError class: message, retryability flag (default
true) and HTTP status code (default 500); generic thrown errors are covered
by the defaults, matching the catch-side classification. -/
structure WebhookError where
  message : String
  isRetryable : Bool := true
  statusCode : Nat := 500
  deriving DecidableEq, Repr

structure Date where
  year : Int
  month : Int
  rest : Nat
  deriving DecidableEq, Repr

/-- JS `d.setFullYear(d.getFullYear() + k)`. -/
def addYears (d : Date) (k : Nat) : Date := { d with year := d.year + k }

/-- JS `d.setMonth(d.getMonth() + k)` with its overflow normalization into
years. -/
def addMonths (d : Date) (k : Nat) : Date :=
  let t := d.month + k
  { d with year := d.year + t / 12, month := t % 12 }

structure BillingCycle where
  interval : String
  frequency : Option Nat := none
  deriving DecidableEq, Repr

/-- One line item of a Paddle transaction; `productName` models
`item.price?.product?.name` and `billingCycle` models
`item.price?.billing_cycle`, whose JSON value can be absent (`none`),
explicitly null (`some none`) or an object (`some (some _)`) — the code
distinguishes `=== null` from undefined. -/
structure Item where
  productName : Option String := none
  billingCycle : Option (Option BillingCycle) := none
  deriving DecidableEq, Repr

structure TxnData where
  id : String
  status : String
  customer_id : Option String := none
  items : List Item := []
  deriving DecidableEq, Repr

structure PaddlePayload where
  event_type : String
  data : TxnData
  deriving DecidableEq, Repr

/-- Shape of the value the transaction work callback returns to the
coordinator: `{ licenseKey, email, alreadyProcessed }`. -/
structure TxnOutcome where
  licenseKey : String
  email : String
  alreadyProcessed : Bool
  deriving DecidableEq, Repr

/-- JSON universe of the values the coordinator stores as a row payload and
the work callback returns as its result. -/
inductive PVal where
  | payload (p : PaddlePayload)
  | outcome (o : TxnOutcome)
  deriving DecidableEq, Repr

/-- JS `s.toLowerCase()` (String.toLower), written over the character list
so that it evaluates by kernel reduction. -/
def strToLower (s : String) : String := ⟨s.data.map Char.toLower⟩

def strIncludesAux (pat : List Char) : List Char → Bool
  | [] => pat.isEmpty
  | c :: rest => pat.isPrefixOf (c :: rest) || strIncludesAux pat rest

/-- JS `s.includes(pat)`. -/
def strIncludes (s pat : String) : Bool := strIncludesAux pat.data s.data

/-- JS `n || 1` on an optional number: undefined and 0 become 1. -/
def jsOrOne : Option Nat → Nat
  | some (n + 1) => n + 1
  | _ => 1

structure LicenseConfig where
  isLifetime : Bool
  expiresAt : Option Date
  maxActivations : Nat
  deriving DecidableEq, Repr

/-- One iteration of the determineLicenseConfig loop over the transaction's
line items, acting on the (isLifetime, expiresAt) accumulator. -/
def configStep (now : Date) (acc : Bool × Option Date) (item : Item) :
    Bool × Option Date :=
  let productName := (item.productName.map strToLower).getD ""
  if strIncludes productName "lifetime" || item.billingCycle == some none then
    (true, none)
  else
    match item.billingCycle with
    | some (some bc) =>
      if bc.interval = "year" then
        (acc.1, some (addYears now (jsOrOne bc.frequency)))
      else if bc.interval = "month" then
        (acc.1, some (addMonths now (jsOrOne bc.frequency)))
      else acc
    | _ => acc

/-- Model of determineLicenseConfig (src/unnamed/part_001). -/
def determineLicenseConfig (now : Date) (data : TxnData) : LicenseConfig :=
  let r := data.items.foldl (configStep now) (false, none)
  ⟨r.1, r.2, 5⟩

/-- An item that takes the lifetime branch of the loop: lowercased product
name contains "lifetime", or the billing cycle is explicitly null. -/
def isLifetimeItem (item : Item) : Bool :=
  strIncludes ((item.productName.map strToLower).getD "") "lifetime" ||
    item.billingCycle == some none

/-- An item that overwrites the expiry in the loop: not a lifetime item, and
its billing cycle is an object with interval year or month. -/
def setsExpiry (item : Item) : Bool :=
  !isLifetimeItem item &&
    (match item.billingCycle with
     | some (some bc) => bc.interval == "year" || bc.interval == "month"
     | _ => false)

/-- Expiry computed by the loop for one recurring billing cycle. -/
def applyCycle (now : Date) (bc : BillingCycle) : Option Date :=
  if bc.interval = "year" then some (addYears now (jsOrOne bc.frequency))
  else if bc.interval = "month" then some (addMonths now (jsOrOne bc.frequency))
  else none

structure UserRow where
  id : Nat
  email : String
  name : Option String := none
  marketingConsent : Bool := false
  deriving DecidableEq, Repr

/-- Metadata stored on licenses created by the Paddle flow. -/
structure PaddleMeta where
  source : String
  transactionId : String
  customerId : String
  paddleData : TxnData
  deriving DecidableEq, Repr

structure LicenseRow where
  id : Nat
  userId : Nat
  licenseKey : String
  status : LicenseStatus := .ACTIVE
  expiresAt : Option Date := none
  maxActivations : Nat := 1
  metadata : Option PaddleMeta := none
  notes : Option String := none
  deriving DecidableEq, Repr

structure PaddlePurchaseRow where
  id : Nat
  paddleTransactionId : String
  paddleCustomerId : String
  email : String
  licenseId : Nat
  userId : Nat
  emailSent : Bool
  paddleData : TxnData
  deriving DecidableEq, Repr

structure WebhookEventRow where
  id : Nat
  source : String
  eventType : String
  eventId : Option String
  payload : PVal
  status : WebhookStatus
  attempts : Nat
  lastAttemptAt : Date
  lastError : Option String := none
  completedAt : Option Date := none
  deriving DecidableEq, Repr

/-- Metadata attached to the license-delivery email queued by the flow. -/
structure EmailMeta where
  type : String
  transactionId : String
  licenseId : Nat
  userId : Nat
  deriving DecidableEq, Repr

/-- The relational store as the Paddle flow and the coordinator see it. -/
structure Db where
  webhookEvents : List WebhookEventRow
  users : List UserRow
  licenses : List LicenseRow
  purchases : List PaddlePurchaseRow
  emailQueue : EmailQueue.QState EmailMeta
  nextId : Nat
  deriving DecidableEq, Repr

def findEvent (source eventId : String) (rows : List WebhookEventRow) :
    Option WebhookEventRow :=
  rows.find? (fun r => r.source == source && r.eventId == some eventId)

def updateEvent (id : Nat) (f : WebhookEventRow → WebhookEventRow)
    (rows : List WebhookEventRow) : List WebhookEventRow :=
  rows.map (fun r => if r.id == id then f r else r)

/-- The `prisma.webhookEvent.upsert` step: update the keyed row to
PROCESSING with attempts incremented, or create it with attempts 1. -/
def upsertEvent (source eventType eid : String) (payload : PVal) (now : Date)
    (db : Db) : WebhookEventRow × Db :=
  match findEvent source eid db.webhookEvents with
  | some existing =>
    let upd := fun (r : WebhookEventRow) =>
      { r with status := WebhookStatus.PROCESSING, attempts := r.attempts + 1,
               lastAttemptAt := now }
    (upd existing, { db with webhookEvents := updateEvent existing.id upd db.webhookEvents })
  | none =>
    let row : WebhookEventRow :=
      ⟨db.nextId, source, eventType, some eid, payload, .PROCESSING, 1, now,
       none, none⟩
    (row, { db with webhookEvents := db.webhookEvents ++ [row],
                    nextId := db.nextId + 1 })

/-- Run the work callback on the upserted row and record COMPLETED, or
RETRYING/FAILED by the error's retryability, re-raising the error. -/
def runWork (rowId : Nat) (now : Date)
    (processor : Db → Except WebhookError (PVal × Db)) (db : Db) :
    Except WebhookError (PVal × Bool) × Db :=
  match processor db with
  | .ok (result, db2) =>
    let upd := fun (r : WebhookEventRow) =>
      { r with status := WebhookStatus.COMPLETED, completedAt := some now,
               lastError := none }
    (.ok (result, true), { db2 with webhookEvents := updateEvent rowId upd db2.webhookEvents })
  | .error e =>
    let status := if e.isRetryable then WebhookStatus.RETRYING else WebhookStatus.FAILED
    let upd := fun (r : WebhookEventRow) =>
      { r with status := status, lastError := some e.message }
    (.error e, { db with webhookEvents := updateEvent rowId upd db.webhookEvents })

/-- Model of WebhookService.processWebhook: the idempotent-replay check, the
PROCESSING fail-fast conflict, the upsert/create to PROCESSING, and the
execution of the work callback. The store is returned alongside the result
in every case (a thrown error leaves behind exactly the writes made before
the throw; a rolled-back transaction leaves none). -/
def processWebhook (source eventType : String) (eventId : Option String)
    (payload : PVal) (now : Date)
    (processor : Db → Except WebhookError (PVal × Db)) (db : Db) :
    Except WebhookError (PVal × Bool) × Db :=
  match eventId with
  | some eid =>
    match findEvent source eid db.webhookEvents with
    | some existing =>
      if existing.status = .COMPLETED then
        (.ok (existing.payload, false), db)
      else if existing.status = .PROCESSING then
        (.error ⟨"Webhook is already being processed", false, 409⟩, db)
      else
        let (row, db1) := upsertEvent source eventType eid payload now db
        runWork row.id now processor db1
    | none =>
      let (row, db1) := upsertEvent source eventType eid payload now db
      runWork row.id now processor db1
  | none =>
    let row : WebhookEventRow :=
      ⟨db.nextId, source, eventType, none, payload, .PROCESSING, 1, now,
       none, none⟩
    let db1 := { db with webhookEvents := db.webhookEvents ++ [row],
                         nextId := db.nextId + 1 }
    runWork row.id now processor db1

structure Customer where
  email : String
  name : Option String := none
  marketingConsent : Bool := false
  deriving DecidableEq, Repr

structure Rendered where
  subject : String
  text : String
  html : String
  deriving DecidableEq, Repr

/-- Variables handed to `emailService.renderTemplateForQueue` for the
paddle-license template. -/
structure TemplateInput where
  licenseKey : String
  isLifetime : Option Bool := none
  expirationDate : Option Date := none
  maxActivations : Option Nat := none
  deriving DecidableEq, Repr

structure CreateLicenseDTO where
  userId : Nat
  expiresAt : Option Date := none
  maxActivations : Option Nat := none
  notes : Option String := none
  metadata : Option PaddleMeta := none

/-- Model of LicenseService.createLicense as used by this flow; the
cryptographic key generation is injected as keyGen applied to the fresh
row id, and `maxActivations || 1` keeps the JS-falsy default. -/
def createLicense (keyGen : Nat → String) (dto : CreateLicenseDTO) (db : Db) :
    LicenseRow × Db :=
  let licenseKey := keyGen db.nextId
  let license : LicenseRow :=
    { id := db.nextId, userId := dto.userId, licenseKey := licenseKey,
      status := .ACTIVE, expiresAt := dto.expiresAt,
      maxActivations := jsOrOne dto.maxActivations,
      metadata := dto.metadata, notes := dto.notes }
  (license, { db with licenses := db.licenses ++ [license],
                      nextId := db.nextId + 1 })

/-- Shape returned by the prisma.$transaction block of
handleTransactionCompleted (the already-processed branch omits the license
configuration fields). -/
structure TxnResult where
  alreadyProcessed : Bool
  licenseKey : String
  email : String
  userId : Nat
  licenseId : Nat
  isLifetime : Option Bool := none
  expiresAt : Option Date := none
  maxActivations : Option Nat := none
  deriving DecidableEq, Repr

/-- Model of the prisma.$transaction block: double-check for an existing
purchase by transaction id, else determine the license configuration,
find-or-create the user (updating a changed marketing-consent flag), create
the license and the purchase row. -/
def txnBlock (keyGen : Nat → String) (now : Date) (data : TxnData)
    (transactionId customerId : String) (customerDetails : Customer)
    (db : Db) : TxnResult × Db :=
  match db.purchases.find? (fun p => p.paddleTransactionId == transactionId) with
  | some existingPurchase =>
    let lk := ((db.licenses.find? (fun l => l.id == existingPurchase.licenseId)).map
      (fun l => l.licenseKey)).getD ""
    (⟨true, lk, existingPurchase.email, existingPurchase.userId,
      existingPurchase.licenseId, none, none, none⟩, db)
  | none =>
    let licenseConfig := determineLicenseConfig now data
    let (user, db1) :=
      match db.users.find? (fun u => u.email == customerDetails.email) with
      | none =>
        let u : UserRow :=
          ⟨db.nextId, customerDetails.email, customerDetails.name,
           customerDetails.marketingConsent⟩
        (u, { db with users := db.users ++ [u], nextId := db.nextId + 1 })
      | some u =>
        if u.marketingConsent ≠ customerDetails.marketingConsent then
          let u2 := { u with marketingConsent := customerDetails.marketingConsent }
          (u2, { db with users := db.users.map (fun (x : UserRow) => if x.id == u.id then { x with marketingConsent := customerDetails.marketingConsent } else x) })
        else (u, db)
    let (license, db2) := createLicense keyGen
      ⟨user.id, licenseConfig.expiresAt, some licenseConfig.maxActivations,
       some ("Paddle purchase - Transaction: " ++ transactionId),
       some ⟨"paddle", transactionId, customerId, data⟩⟩ db1
    let purchase : PaddlePurchaseRow :=
      ⟨db2.nextId, transactionId, customerId, customerDetails.email,
       license.id, user.id, false, data⟩
    let db3 := { db2 with purchases := db2.purchases ++ [purchase],
                          nextId := db2.nextId + 1 }
    (⟨false, license.licenseKey, customerDetails.email, user.id, license.id,
      some licenseConfig.isLifetime, licenseConfig.expiresAt,
      some licenseConfig.maxActivations⟩, db3)

/-- Model of the work callback handed to processWebhook by
handleTransactionCompleted: business validation, the customer fetch
(retry-wrapped upstream call, injected by its outcome), the atomic purchase
transaction, and the best-effort license-delivery email enqueue (nowMs is
the Unix-ms clock used by the email queue). -/
def txnWork (keyGen : Nat → String) (now : Date) (nowMs : Nat)
    (fetchCustomer : String → Except WebhookError Customer)
    (render : TemplateInput → Rendered)
    (data : TxnData) (db : Db) : Except WebhookError (PVal × Db) :=
  let transactionId := data.id
  if data.status ≠ "completed" then
    .error ⟨"Transaction not completed", false, 200⟩
  else
    match data.customer_id with
    | none => .error ⟨"No customer ID found", false, 400⟩
    | some customerId =>
      match fetchCustomer customerId with
      | .error e => .error e
      | .ok customerDetails =>
        let (result, db1) :=
          txnBlock keyGen now data transactionId customerId customerDetails db
        let db2 :=
          if result.alreadyProcessed then db1
          else
            let template := render
              ⟨result.licenseKey, result.isLifetime, result.expiresAt,
               result.maxActivations⟩
            let q := (EmailQueue.queueEmail nowMs
              ⟨result.email, template.subject, template.text, template.html,
               some ⟨"paddle-license", transactionId, result.licenseId,
                     result.userId⟩, none⟩ db1.emailQueue).2
            { db1 with emailQueue := q }
        .ok (.outcome ⟨result.licenseKey, result.email,
          result.alreadyProcessed⟩, db2)

/-- HTTP-level response of handleTransactionCompleted:
`{ success: true, ...result, isNewEvent }`. -/
structure TxnResponse where
  result : PVal
  isNewEvent : Bool
  deriving DecidableEq, Repr

/-- Model of handleTransactionCompleted: run the work callback under the
idempotency coordinator keyed by (paddle, transaction id). -/
def handleTransactionCompleted (keyGen : Nat → String) (now : Date)
    (nowMs : Nat) (fetchCustomer : String → Except WebhookError Customer)
    (render : TemplateInput → Rendered)
    (payload : PaddlePayload) (db : Db) :
    Except WebhookError TxnResponse × Db :=
  let data := payload.data
  let transactionId := data.id
  match processWebhook "paddle" "transaction.completed" (some transactionId)
      (.payload payload) now
      (txnWork keyGen now nowMs fetchCustomer render data) db with
  | (.ok (result, isNewEvent), db1) => (.ok ⟨result, isNewEvent⟩, db1)
  | (.error e, db1) => (.error e, db1)

end Webhook

/-! RevenueCat account migration (src/unnamed/part_000), modelled from the
point where the billing-provider API response is in hand; entitlement expiry
timestamps are Unix ms. -/

namespace RevenueCat

structure Entitlement where
  expiresAt : Option Int := none
  deriving DecidableEq, Repr

inductive Eligibility where
  | ineligible
  | lifetime
  | annual (expirationDate : Int)
  deriving DecidableEq, Repr

/-- One entitlement passes the eligibility clauses: no expiry (lifetime), or
months-until-expiry = (expires - now) / (1000·60·60·24·30) at least 11. -/
def entEligible (now : Int) (e : Entitlement) : Bool :=
  match e.expiresAt with
  | none => true
  | some expMs =>
    decide ((11 : ℚ) ≤ ((expMs - now : Int) : ℚ) / (1000 * 60 * 60 * 24 * 30))

/-- Model of the eligibility loop: the first entitlement satisfying either
clause wins and fixes the subscription type and the license expiry. -/
def checkEligibility (now : Int) : List Entitlement → Eligibility
  | [] => .ineligible
  | e :: rest =>
    match e.expiresAt with
    | none => .lifetime
    | some expMs =>
      if (11 : ℚ) ≤ ((expMs - now : Int) : ℚ) / (1000 * 60 * 60 * 24 * 30) then
        .annual expMs
      else checkEligibility now rest

structure RCUser where
  id : Nat
  email : String
  name : Option String := none
  deriving DecidableEq, Repr

structure RCLicense where
  id : Nat
  userId : Nat
  licenseKey : String
  expiresAt : Option Int := none
  maxActivations : Nat
  notes : Option String := none
  subscriptionType : String
  revenueCatUserId : String
  deriving DecidableEq, Repr

structure MigrationRow where
  revenueCatUserId : String
  email : String
  licenseId : Nat
  userId : Nat
  emailSent : Bool
  emailSentAt : Option Int := none
  revenueCatData : List Entitlement := []
  deriving DecidableEq, Repr

structure RCState where
  migrations : List MigrationRow
  users : List RCUser
  licenses : List RCLicense
  nextId : Nat
  deriving DecidableEq, Repr

inductive MigrateResponse where
  | ok (alreadyMigrated : Bool) (subscriptionType : Option String)
      (licenseKey : String) (email : String) (userId : String)
      (expiresAt : Option Int) (emailSent : Bool)
  | err (code : Nat) (error : String)
  deriving DecidableEq, Repr

/-- Model of the migrate route handler from the point where the RevenueCat
customer response is in hand: the already-migrated guard, the eligibility
loop, find-or-create user, license creation (key via keyGen, maxActivations
5), the email send (injected by its success flag) and the migration record.
-/
def migrate (keyGen : Nat → String) (now : Int) (emailOk : Bool)
    (email userId : String) (entitlements : List Entitlement)
    (st : RCState) : MigrateResponse × RCState :=
  match st.migrations.find? (fun m => m.revenueCatUserId == userId) with
  | some m =>
    let lk := ((st.licenses.find? (fun l => l.id == m.licenseId)).map
      (fun l => l.licenseKey)).getD ""
    let exp := (st.licenses.find? (fun l => l.id == m.licenseId)).bind
      (fun l => l.expiresAt)
    (.ok true none lk m.email userId exp m.emailSent, st)
  | none =>
    match checkEligibility now entitlements with
    | .ineligible =>
      (.err 400 "No eligible purchase found. Only lifetime and annual subscriptions can be migrated.", st)
    | elig =>
      let subscriptionType :=
        match elig with
        | .lifetime => "lifetime"
        | _ => "annual"
      let licenseExpiresAt : Option Int :=
        match elig with
        | .annual e => some e
        | _ => none
      let (user, st1) :=
        match st.users.find? (fun u => u.email == email) with
        | some u => (u, st)
        | none =>
          let u : RCUser := ⟨st.nextId, email, none⟩
          (u, { st with users := st.users ++ [u], nextId := st.nextId + 1 })
      let licenseKey := keyGen st1.nextId
      let license : RCLicense :=
        ⟨st1.nextId, user.id, licenseKey, licenseExpiresAt, 5,
         some ("Migrated from RevenueCat user: " ++ userId ++ " (" ++
           subscriptionType ++ ")"),
         subscriptionType, userId⟩
      let st2 := { st1 with licenses := st1.licenses ++ [license],
                            nextId := st1.nextId + 1 }
      let emailSentAt : Option Int := if emailOk then some now else none
      let st3 := { st2 with migrations := st2.migrations ++
        [⟨userId, email, license.id, user.id, emailOk, emailSentAt,
          entitlements⟩] }
      (.ok false (some subscriptionType) licenseKey email userId
        licenseExpiresAt emailOk, st3)

end RevenueCat

/-! Concrete scenario inputs for the duplicate-delivery and lifetime-expiry
theorems. -/

def c1KeyGen : Nat → String := fun n => "KEY-" ++ toString n

def c1Now : Webhook.Date := ⟨2025, 5, 0⟩

def c1Fetch : String → Except Webhook.WebhookError Webhook.Customer :=
  fun _ => .ok ⟨"ann@example.com", some "Ann", false⟩

def c1Render : Webhook.TemplateInput → Webhook.Rendered :=
  fun _ => ⟨"Your AppGrid License Key", "text body", "html body"⟩

def c1Payload : Webhook.PaddlePayload :=
  ⟨"transaction.completed",
   ⟨"txn_1", "completed", some "ctm_1", [⟨some "AppGrid Lifetime", some none⟩]⟩⟩

def c1Db0 : Webhook.Db := ⟨[], [], [], [], ⟨[], 0⟩, 0⟩

def c5Payload : Webhook.PaddlePayload :=
  ⟨"transaction.completed",
   ⟨"txn_2", "completed", some "ctm_1",
    [⟨some "AppGrid Lifetime", some none⟩,
     ⟨some "AppGrid Monthly", some (some ⟨"month", some 1⟩)⟩]⟩⟩

def c2Db : Webhook.Db :=
  ⟨[⟨0, "paddle", "transaction.completed", some "txn_9", .payload c1Payload,
     .PROCESSING, 1, ⟨2025, 5, 0⟩, none, none⟩], [], [], [], ⟨[], 0⟩, 1⟩

/-! THEOREMS -/

namespace Retry

theorem retryGo_ok (fn : Nat → Except E T) (sr : E → Bool) (base cap : Nat) :
    ∀ (fuel a k : Nat) (v : T) (errs : Nat → E),
      a ≤ k → k ≤ a + fuel →
      (∀ i, a ≤ i → i < k → fn i = .error (errs i) ∧ sr (errs i) = true) →
      fn k = .ok v →
      retryGo fn sr base cap a fuel = ⟨.ok v, failEvents errs base cap a (k - a)⟩ := by
  intro fuel
  induction fuel with
  | zero =>
    intro a k v errs hak hka _ hk
    have hak2 : a = k := by omega
    subst hak2
    simp [retryGo, hk, failEvents]
  | succ fuel ih =>
    intro a k v errs hak hka hfail hk
    rcases Nat.eq_or_lt_of_le hak with heq | hlt
    · subst heq
      simp [retryGo, hk, failEvents]
    · obtain ⟨ha, hsr⟩ := hfail a le_rfl hlt
      have hrest := ih (a + 1) k v errs hlt (by omega)
        (fun i hi1 hi2 => hfail i (by omega) hi2) hk
      have hcnt : k - a = (k - (a + 1)) + 1 := by omega
      simp [retryGo, ha, hsr, hrest, hcnt, failEvents, backoffDelay]

theorem retryGo_err (fn : Nat → Except E T) (sr : E → Bool) (base cap : Nat) :
    ∀ (fuel a j : Nat) (e : E) (errs : Nat → E),
      a ≤ j → j ≤ a + fuel →
      (∀ i, a ≤ i → i < j → fn i = .error (errs i) ∧ sr (errs i) = true) →
      fn j = .error e →
      (j = a + fuel ∨ sr e = false) →
      retryGo fn sr base cap a fuel = ⟨.error e, failEvents errs base cap a (j - a)⟩ := by
  intro fuel
  induction fuel with
  | zero =>
    intro a j e errs haj hja _ hj _
    have : a = j := by omega
    subst this
    simp [retryGo, hj, failEvents]
  | succ fuel ih =>
    intro a j e errs haj hja hfail hj hstop
    rcases Nat.eq_or_lt_of_le haj with heq | hlt
    · subst heq
      rcases hstop with hlast | hnoretry
      · omega
      · simp [retryGo, hj, hnoretry, failEvents]
    · obtain ⟨ha, hsr⟩ := hfail a le_rfl hlt
      have hstop2 : j = a + 1 + fuel ∨ sr e = false := by
        rcases hstop with h1 | h2
        · left; omega
        · right; exact h2
      have hrest := ih (a + 1) j e errs hlt (by omega)
        (fun i hi1 hi2 => hfail i (by omega) hi2) hj hstop2
      have hcnt : j - a = (j - (a + 1)) + 1 := by omega
      simp [retryGo, ha, hsr, hrest, hcnt, failEvents, backoffDelay]

end Retry

/-- C3: with parameters maxAttempts, baseDelayMs, maxDelayMs and shouldRetry,
if the wrapped operation fails on attempts 1..k-1 with errors accepted by
shouldRetry and succeeds on attempt k ≤ maxAttempts, `retry` returns the
success value and fires the onRetry hook exactly k-1 times with attempt
numbers 1..k-1, each hook call right before the corresponding wait of
min(baseDelayMs × 2^(i-1), maxDelayMs) ms; if instead the failure is on the
last allowed attempt, or shouldRetry rejects the error, the error is
re-raised immediately with no further hook call. -/
theorem C3_retry_behavior (E T : Type) (opts : Retry.RetryOptions E)
    (fn : Nat → Except E T) :
    (∀ (k : Nat) (v : T) (errs : Nat → E),
        1 ≤ k → k ≤ opts.maxAttempts →
        (∀ i, 1 ≤ i → i < k →
          fn i = .error (errs i) ∧ opts.shouldRetry (errs i) = true) →
        fn k = .ok v →
        Retry.retry fn opts =
          ⟨.ok v, Retry.failEvents errs opts.baseDelayMs opts.maxDelayMs 1 (k - 1)⟩)
    ∧ (∀ (j : Nat) (e : E) (errs : Nat → E),
        1 ≤ j → j ≤ opts.maxAttempts →
        (∀ i, 1 ≤ i → i < j →
          fn i = .error (errs i) ∧ opts.shouldRetry (errs i) = true) →
        fn j = .error e →
        (j = opts.maxAttempts ∨ opts.shouldRetry e = false) →
        Retry.retry fn opts =
          ⟨.error e, Retry.failEvents errs opts.baseDelayMs opts.maxDelayMs 1 (j - 1)⟩) := by
  constructor
  · intro k v errs hk1 hkmax hfail hk
    exact Retry.retryGo_ok fn opts.shouldRetry opts.baseDelayMs opts.maxDelayMs
      (opts.maxAttempts - 1) 1 k v errs hk1 (by omega) hfail hk
  · intro j e errs hj1 hjmax hfail hj hstop
    refine Retry.retryGo_err fn opts.shouldRetry opts.baseDelayMs opts.maxDelayMs
      (opts.maxAttempts - 1) 1 j e errs hj1 (by omega) hfail hj ?_
    rcases hstop with h1 | h2
    · left; omega
    · right; exact h2

namespace EmailQueue

theorem findRow_updateRow (id : Nat) (f : Row M → Row M) (rows : List (Row M))
    (hf : ∀ r, (f r).id = r.id) :
    findRow id (updateRow id f rows) = (findRow id rows).map f := by
  induction rows with
  | nil => rfl
  | cons r rest ih =>
    simp only [updateRow, List.map_cons] at *
    by_cases h : r.id = id
    · rw [if_pos (by simpa using h)]
      unfold findRow
      rw [List.find?_cons_of_pos _ (by simp [hf r, h]),
          List.find?_cons_of_pos _ (by simp [h])]
      rfl
    · rw [if_neg (by simpa using h)]
      unfold findRow
      rw [List.find?_cons_of_neg _ (by simp [h]),
          List.find?_cons_of_neg _ (by simp [h])]
      exact ih

theorem sendEmail_fail_retry (now : Nat) (oe : Option String) (id : Nat)
    (st : QState M) (row : Row M)
    (hfind : findRow id st.rows = some row)
    (hsent : row.status ≠ .SENT)
    (hmore : row.attempts + 1 < row.maxAttempts) :
    findRow id (sendEmail now (.failure oe) id st).rows =
      some { row with
             status := .RETRYING,
             attempts := row.attempts + 1,
             lastAttemptAt := some now,
             lastError := some (oe.getD "Unknown error"),
             nextRetryAt :=
               now + ([1, 5, 15, 60, 240].getD (min row.attempts 4) 0) * 60 * 1000 } := by
  simp only [sendEmail, hfind]
  rw [if_neg hsent]
  simp only [handleEmailFailure]
  rw [findRow_updateRow, hfind]
  · simp only [Option.map_some']
    rw [if_pos hmore]
    rw [findRow_updateRow, findRow_updateRow, hfind]
    · simp
    · exact fun r => rfl
    · exact fun r => rfl
  · exact fun r => rfl

theorem sendEmail_fail_exhausted (now : Nat) (oe : Option String) (id : Nat)
    (st : QState M) (row : Row M)
    (hfind : findRow id st.rows = some row)
    (hsent : row.status ≠ .SENT)
    (hlast : ¬ row.attempts + 1 < row.maxAttempts) :
    findRow id (sendEmail now (.failure oe) id st).rows =
      some { row with
             status := .FAILED,
             attempts := row.attempts + 1,
             lastAttemptAt := some now,
             lastError := some ("Max attempts (" ++ toString row.maxAttempts ++
               ") reached. Last error: " ++ oe.getD "Unknown error") } := by
  simp only [sendEmail, hfind]
  rw [if_neg hsent]
  simp only [handleEmailFailure]
  rw [findRow_updateRow, hfind]
  · simp only [Option.map_some']
    rw [if_neg hlast]
    rw [findRow_updateRow, findRow_updateRow, hfind]
    · simp
    · exact fun r => rfl
    · exact fun r => rfl
  · exact fun r => rfl

theorem sendEmail_success (now : Nat) (m : String) (id : Nat)
    (st : QState M) (row : Row M)
    (hfind : findRow id st.rows = some row)
    (hsent : row.status ≠ .SENT) :
    findRow id (sendEmail now (.success m) id st).rows =
      some { row with
             status := .SENT,
             attempts := row.attempts + 1,
             lastAttemptAt := some now,
             sentAt := some now,
             messageId := some m,
             lastError := none } := by
  simp only [sendEmail, hfind]
  rw [if_neg hsent]
  rw [findRow_updateRow, findRow_updateRow, hfind]
  · simp
  · exact fun r => rfl
  · exact fun r => rfl

end EmailQueue

/-- Concrete operation for the C3 witness: fails on attempts 1 and 2 with
error values 1 and 2, then succeeds with 42 on attempt 3. -/
def c3fn : Nat → Except Nat Nat := fun i => if i < 3 then .error i else .ok 42

theorem C3_retry_behavior_witness :
    Retry.retry c3fn {} =
      ⟨.ok 42, [.hook 1 1, .wait 1000, .hook 2 2, .wait 2000]⟩ := by
  have h := (C3_retry_behavior Nat Nat {} c3fn).1 3 42 (fun i => i)
    (by norm_num) (by norm_num)
    (fun i h1 h2 => by interval_cases i <;> exact ⟨rfl, rfl⟩) rfl
  exact h.trans rfl

/-- C4 counterexample: a queue item with maxAttempts = 5 whose five send
attempts all fail ends FAILED with next-retry-at still the 60-minute stamp of
the fourth failure (40 + 3600000 = 3600040), not the claimed 240-minute delta
after the fifth failure (50 + 14400000); the 240-minute entry is never used. -/
theorem C4_email_backoff_counterexample :
    (EmailQueue.findRow 7
        (EmailQueue.sendEmail 50 (.failure (some "boom")) 7
          (EmailQueue.sendEmail 40 (.failure (some "boom")) 7
            (EmailQueue.sendEmail 30 (.failure (some "boom")) 7
              (EmailQueue.sendEmail 20 (.failure (some "boom")) 7
                (EmailQueue.sendEmail 10 (.failure (some "boom")) 7
                  (⟨[⟨7, "a@b.c", "subj", "txt", "html", .PENDING, 0, 5, none, 0,
                      none, none, none, none⟩], 8⟩ :
                    EmailQueue.QState Unit)))))).rows).map
        (fun r => (r.status, r.nextRetryAt)) =
      some (.FAILED, 40 + 60 * 60 * 1000) ∧
    40 + 60 * 60 * 1000 ≠ 50 + 240 * 60 * 1000 := by
  constructor
  · decide
  · decide

/-- C4 amended: for an email queue item with maxAttempts = 5 whose every send
attempt fails, the queue sets next-retry-at deltas of 1, 5, 15 and 60 minutes
after failed attempts 1 to 4 respectively, and after the 5th failure
transitions the item directly to FAILED with a message noting max attempts
reached and the last error (no 240-minute delta is scheduled: the fifth
schedule entry is reachable only when maxAttempts exceeds 5). -/
theorem C4_email_backoff (M : Type) (st : EmailQueue.QState M) (i : Nat)
    (a s x h : String) (md : Option M) (nra : Nat) (le : Option String)
    (laa sa : Option Nat) (mi : Option String) (err : String)
    (t1 t2 t3 t4 t5 : Nat)
    (hfind : EmailQueue.findRow i st.rows =
      some ⟨i, a, s, x, h, .PENDING, 0, 5, md, nra, le, laa, sa, mi⟩) :
    EmailQueue.findRow i
        (EmailQueue.sendEmail t1 (.failure (some err)) i st).rows =
      some ⟨i, a, s, x, h, .RETRYING, 1, 5, md, t1 + 1 * 60 * 1000, some err,
        some t1, sa, mi⟩ ∧
    EmailQueue.findRow i
        (EmailQueue.sendEmail t2 (.failure (some err)) i
          (EmailQueue.sendEmail t1 (.failure (some err)) i st)).rows =
      some ⟨i, a, s, x, h, .RETRYING, 2, 5, md, t2 + 5 * 60 * 1000, some err,
        some t2, sa, mi⟩ ∧
    EmailQueue.findRow i
        (EmailQueue.sendEmail t3 (.failure (some err)) i
          (EmailQueue.sendEmail t2 (.failure (some err)) i
            (EmailQueue.sendEmail t1 (.failure (some err)) i st))).rows =
      some ⟨i, a, s, x, h, .RETRYING, 3, 5, md, t3 + 15 * 60 * 1000, some err,
        some t3, sa, mi⟩ ∧
    EmailQueue.findRow i
        (EmailQueue.sendEmail t4 (.failure (some err)) i
          (EmailQueue.sendEmail t3 (.failure (some err)) i
            (EmailQueue.sendEmail t2 (.failure (some err)) i
              (EmailQueue.sendEmail t1 (.failure (some err)) i st)))).rows =
      some ⟨i, a, s, x, h, .RETRYING, 4, 5, md, t4 + 60 * 60 * 1000, some err,
        some t4, sa, mi⟩ ∧
    EmailQueue.findRow i
        (EmailQueue.sendEmail t5 (.failure (some err)) i
          (EmailQueue.sendEmail t4 (.failure (some err)) i
            (EmailQueue.sendEmail t3 (.failure (some err)) i
              (EmailQueue.sendEmail t2 (.failure (some err)) i
                (EmailQueue.sendEmail t1 (.failure (some err)) i st))))).rows =
      some ⟨i, a, s, x, h, .FAILED, 5, 5, md, t4 + 60 * 60 * 1000,
        some ("Max attempts (5) reached. Last error: " ++ err), some t5, sa, mi⟩ := by
  have h1 := EmailQueue.sendEmail_fail_retry t1 (some err) i st
    ⟨i, a, s, x, h, .PENDING, 0, 5, md, nra, le, laa, sa, mi⟩ hfind
    (by simp) (by norm_num)
  have h1' : EmailQueue.findRow i
      (EmailQueue.sendEmail t1 (.failure (some err)) i st).rows =
      some ⟨i, a, s, x, h, .RETRYING, 1, 5, md, t1 + 1 * 60 * 1000, some err,
        some t1, sa, mi⟩ := h1
  have h2 := EmailQueue.sendEmail_fail_retry t2 (some err) i _
    ⟨i, a, s, x, h, .RETRYING, 1, 5, md, t1 + 1 * 60 * 1000, some err,
      some t1, sa, mi⟩ h1' (by simp) (by norm_num)
  have h2' : EmailQueue.findRow i
      (EmailQueue.sendEmail t2 (.failure (some err)) i
        (EmailQueue.sendEmail t1 (.failure (some err)) i st)).rows =
      some ⟨i, a, s, x, h, .RETRYING, 2, 5, md, t2 + 5 * 60 * 1000, some err,
        some t2, sa, mi⟩ := h2
  have h3 := EmailQueue.sendEmail_fail_retry t3 (some err) i _
    ⟨i, a, s, x, h, .RETRYING, 2, 5, md, t2 + 5 * 60 * 1000, some err,
      some t2, sa, mi⟩ h2' (by simp) (by norm_num)
  have h3' : EmailQueue.findRow i
      (EmailQueue.sendEmail t3 (.failure (some err)) i
        (EmailQueue.sendEmail t2 (.failure (some err)) i
          (EmailQueue.sendEmail t1 (.failure (some err)) i st))).rows =
      some ⟨i, a, s, x, h, .RETRYING, 3, 5, md, t3 + 15 * 60 * 1000, some err,
        some t3, sa, mi⟩ := h3
  have h4 := EmailQueue.sendEmail_fail_retry t4 (some err) i _
    ⟨i, a, s, x, h, .RETRYING, 3, 5, md, t3 + 15 * 60 * 1000, some err,
      some t3, sa, mi⟩ h3' (by simp) (by norm_num)
  have h4' : EmailQueue.findRow i
      (EmailQueue.sendEmail t4 (.failure (some err)) i
        (EmailQueue.sendEmail t3 (.failure (some err)) i
          (EmailQueue.sendEmail t2 (.failure (some err)) i
            (EmailQueue.sendEmail t1 (.failure (some err)) i st)))).rows =
      some ⟨i, a, s, x, h, .RETRYING, 4, 5, md, t4 + 60 * 60 * 1000, some err,
        some t4, sa, mi⟩ := h4
  have h5 := EmailQueue.sendEmail_fail_exhausted t5 (some err) i _
    ⟨i, a, s, x, h, .RETRYING, 4, 5, md, t4 + 60 * 60 * 1000, some err,
      some t4, sa, mi⟩ h4' (by simp) (by norm_num)
  refine ⟨h1', h2', h3', h4', ?_⟩
  have h5' := h5
  simp only at h5'
  rw [show ("Max attempts (" ++ toString (5 : Nat) ++ ") reached. Last error: ") =
      "Max attempts (5) reached. Last error: " from by decide] at h5'
  exact h5' 

theorem C4_email_backoff_witness :
    EmailQueue.findRow 7
        (EmailQueue.sendEmail 50 (.failure (some "boom")) 7
          (EmailQueue.sendEmail 40 (.failure (some "boom")) 7
            (EmailQueue.sendEmail 30 (.failure (some "boom")) 7
              (EmailQueue.sendEmail 20 (.failure (some "boom")) 7
                (EmailQueue.sendEmail 10 (.failure (some "boom")) 7
                  (⟨[⟨7, "a@b.c", "subj", "txt", "html", .PENDING, 0, 5, none, 0,
                      none, none, none, none⟩], 8⟩ :
                    EmailQueue.QState Unit)))))).rows =
      some ⟨7, "a@b.c", "subj", "txt", "html", .FAILED, 5, 5, none,
        40 + 60 * 60 * 1000,
        some ("Max attempts (5) reached. Last error: " ++ "boom"), some 50,
        none, none⟩ := by
  have h := C4_email_backoff Unit
    ⟨[⟨7, "a@b.c", "subj", "txt", "html", .PENDING, 0, 5, none, 0,
        none, none, none, none⟩], 8⟩ 7
    "a@b.c" "subj" "txt" "html" none 0 none none none none "boom"
    10 20 30 40 50 (by decide)
  exact h.2.2.2.2

/-- C10: EmailQueueService.retryEmail performs no status check: for any
existing queue row — in particular one already SENT — it resets status to
PENDING, attempts to 0, lastError to null and next-retry-at to now, then
immediately performs one send attempt, so with a succeeding transport the row
is delivered again (ending SENT with attempts 1 and the new message id); a
nonexistent id raises "Email not found" with no state produced. -/
theorem C10_retryEmail_behavior (M : Type) (st : EmailQueue.QState M)
    (i now : Nat) (tr : EmailQueue.TransportResult) :
    (EmailQueue.findRow i st.rows = none →
      EmailQueue.retryEmail now tr i st = .error "Email not found")
    ∧ (∀ row : EmailQueue.Row M, EmailQueue.findRow i st.rows = some row →
        ∃ st1 : EmailQueue.QState M,
          EmailQueue.retryEmail now tr i st = .ok (EmailQueue.sendEmail now tr i st1) ∧
          EmailQueue.findRow i st1.rows =
            some { row with
                   status := .PENDING,
                   attempts := 0,
                   lastError := none,
                   nextRetryAt := now })
    ∧ (∀ row : EmailQueue.Row M, EmailQueue.findRow i st.rows = some row →
        ∀ m : String, tr = .success m →
          ∃ st2 : EmailQueue.QState M,
            EmailQueue.retryEmail now tr i st = .ok st2 ∧
            EmailQueue.findRow i st2.rows =
              some { row with
                     status := .SENT,
                     attempts := 1,
                     lastAttemptAt := some now,
                     sentAt := some now,
                     messageId := some m,
                     lastError := none,
                     nextRetryAt := now }) := by
  refine ⟨?_, ?_, ?_⟩
  · intro hnone
    simp only [EmailQueue.retryEmail, hnone]
  · intro row hrow
    have hok : EmailQueue.retryEmail now tr i st =
        .ok (EmailQueue.sendEmail now tr i { st with rows := EmailQueue.updateRow i (fun r => { r with status := EmailQueue.EmailStatus.PENDING, attempts := 0, lastError := none, nextRetryAt := now }) st.rows }) := by
      simp only [EmailQueue.retryEmail, hrow]
    have hfind1 : EmailQueue.findRow i (EmailQueue.updateRow i (fun r => { r with status := EmailQueue.EmailStatus.PENDING, attempts := 0, lastError := none, nextRetryAt := now }) st.rows) =
        some { row with status := EmailQueue.EmailStatus.PENDING, attempts := 0, lastError := none, nextRetryAt := now } := by
      rw [EmailQueue.findRow_updateRow, hrow]
      · rfl
      · exact fun r => rfl
    exact ⟨_, hok, hfind1⟩
  · intro row hrow m htr
    subst htr
    have hok : EmailQueue.retryEmail now (.success m) i st =
        .ok (EmailQueue.sendEmail now (.success m) i { st with rows := EmailQueue.updateRow i (fun r => { r with status := EmailQueue.EmailStatus.PENDING, attempts := 0, lastError := none, nextRetryAt := now }) st.rows }) := by
      simp only [EmailQueue.retryEmail, hrow]
    have hreset : EmailQueue.findRow i (EmailQueue.updateRow i (fun r => { r with status := EmailQueue.EmailStatus.PENDING, attempts := 0, lastError := none, nextRetryAt := now }) st.rows) =
        some { row with status := EmailQueue.EmailStatus.PENDING, attempts := 0, lastError := none, nextRetryAt := now } := by
      rw [EmailQueue.findRow_updateRow, hrow]
      · rfl
      · exact fun r => rfl
    have hsend := EmailQueue.sendEmail_success now m i
      { st with rows := EmailQueue.updateRow i (fun r => { r with status := EmailQueue.EmailStatus.PENDING, attempts := 0, lastError := none, nextRetryAt := now }) st.rows }
      { row with status := EmailQueue.EmailStatus.PENDING, attempts := 0, lastError := none, nextRetryAt := now }
      hreset (by simp)
    exact ⟨_, hok, hsend⟩

/-- Concrete queue state for the C10 witness: a single row that is already
SENT with three attempts recorded. -/
def c10State : EmailQueue.QState Unit :=
  ⟨[⟨7, "a@b.c", "subj", "txt", "html", .SENT, 3, 5, none, 0, none, some 90,
     some 95, some "m1"⟩], 8⟩

theorem C10_retryEmail_behavior_witness :
    EmailQueue.retryEmail 100 (.success "m2") 9 c10State = .error "Email not found"
    ∧ ∃ st2 : EmailQueue.QState Unit,
        EmailQueue.retryEmail 100 (.success "m2") 7 c10State = .ok st2 ∧
        EmailQueue.findRow 7 st2.rows =
          some ⟨7, "a@b.c", "subj", "txt", "html", .SENT, 1, 5, none, 100, none,
            some 100, some 100, some "m2"⟩ := by
  constructor
  · exact (C10_retryEmail_behavior Unit c10State 9 100 (.success "m2")).1 (by decide)
  · obtain ⟨st2, hok, hfind⟩ :=
      (C10_retryEmail_behavior Unit c10State 7 100 (.success "m2")).2.2
        ⟨7, "a@b.c", "subj", "txt", "html", .SENT, 3, 5, none, 0, none, some 90,
          some 95, some "m1"⟩ (by decide) "m2" rfl
    exact ⟨st2, hok, hfind⟩

/-! Helper list lemmas for the license-validation proofs. -/

theorem find?_map_congr {α : Type} (g : α → α) (p : α → Bool) (l : List α)
    (h : ∀ a, p (g a) = p a) : (l.map g).find? p = (l.find? p).map g := by
  induction l with
  | nil => rfl
  | cons a t ih =>
    by_cases hp : p a = true
    · rw [List.map_cons, List.find?_cons_of_pos _ (by rw [h]; exact hp),
          List.find?_cons_of_pos _ hp]
      rfl
    · rw [List.map_cons, List.find?_cons_of_neg _ (by rw [h]; exact hp),
          List.find?_cons_of_neg _ hp]
      exact ih

theorem map_eq_self_of {α : Type} (g : α → α) (l : List α)
    (h : ∀ a ∈ l, g a = a) : l.map g = l := by
  induction l with
  | nil => rfl
  | cons a t ih =>
    rw [List.map_cons, h a (by simp), ih (fun b hb => h b (by simp [hb]))]

theorem find?_append_none {α : Type} (p : α → Bool) (l₁ l₂ : List α)
    (h : l₁.find? p = none) : (l₁ ++ l₂).find? p = l₂.find? p := by
  induction l₁ with
  | nil => rfl
  | cons a t ih =>
    by_cases hp : p a = true
    · rw [List.find?_cons_of_pos _ hp] at h
      exact absurd h (by simp)
    · rw [List.find?_cons_of_neg _ hp] at h
      rw [List.cons_append, List.find?_cons_of_neg _ hp]
      exact ih h

/-- C8: in both validateLicense variants, a license with status REVOKED is
reported invalid with message "License has been revoked" — the REVOKED check
precedes the expiry check, so this holds even when expiresAt is in the past —
and the licenses table is left unchanged (in particular the status is not
overwritten to EXPIRED). -/
theorem C8_revoked_precedence :
    (∀ (st : LicenseDevice.LState) (now : Nat) (key : String)
        (fp ip ua : Option String) (lic : LicenseDevice.License),
        st.licenses.find? (fun l => l.licenseKey == key) = some lic →
        lic.status = .REVOKED →
        (LicenseDevice.validateLicense now key fp ip ua st).1 =
          ⟨false, none, "License has been revoked"⟩ ∧
        (LicenseDevice.validateLicense now key fp ip ua st).2.licenses =
          st.licenses)
    ∧ (∀ (st : LicenseCounter.LState) (now : Nat) (key : String)
        (fp ip ua : Option String) (lic : LicenseCounter.License),
        st.licenses.find? (fun l => l.licenseKey == key) = some lic →
        lic.status = .REVOKED →
        (LicenseCounter.validateLicense now key fp ip ua st).1 =
          ⟨false, none, "License has been revoked"⟩ ∧
        (LicenseCounter.validateLicense now key fp ip ua st).2.licenses =
          st.licenses) := by
  constructor
  · intro st now key fp ip ua lic hfind hrev
    simp [LicenseDevice.validateLicense, hfind, hrev]
  · intro st now key fp ip ua lic hfind hrev
    simp [LicenseCounter.validateLicense, hfind, hrev]

theorem C8_revoked_precedence_witness :
    ((LicenseDevice.validateLicense 100 "AAAA-0000-0000-0001" none none none
        ⟨[⟨1, "AAAA-0000-0000-0001", .REVOKED, some 50, 3, some 10⟩], [], [], 2⟩).1 =
      ⟨false, none, "License has been revoked"⟩)
    ∧ ((LicenseCounter.validateLicense 100 "AAAA-0000-0000-0002" none none none
        ⟨[⟨1, "AAAA-0000-0000-0002", .REVOKED, some 50, 3, 1, some 10⟩], []⟩).1 =
      ⟨false, none, "License has been revoked"⟩) := by
  constructor
  · exact (C8_revoked_precedence.1
      ⟨[⟨1, "AAAA-0000-0000-0001", .REVOKED, some 50, 3, some 10⟩], [], [], 2⟩
      100 "AAAA-0000-0000-0001" none none none
      ⟨1, "AAAA-0000-0000-0001", .REVOKED, some 50, 3, some 10⟩
      (by decide) rfl).1
  · exact (C8_revoked_precedence.2
      ⟨[⟨1, "AAAA-0000-0000-0002", .REVOKED, some 50, 3, 1, some 10⟩], []⟩
      100 "AAAA-0000-0000-0002" none none none
      ⟨1, "AAAA-0000-0000-0002", .REVOKED, some 50, 3, 1, some 10⟩
      (by decide) rfl).1

/-- C6 counterexample: in the device-activation validateLicense, a license
whose activation capacity is fully consumed (maxActivations = 1 with one
activated device) is nonetheless reported VALID with message
"License is valid" when the supplied fingerprint matches the existing
activation — refuting the claim that capacity exhaustion yields
"Maximum activations reached" regardless of the device fingerprint. -/
theorem C6_max_activations_counterexample :
    ((LicenseDevice.validateLicense 100 "AAAA-0000-0000-0003" (some "dev1")
        none none
        ⟨[⟨1, "AAAA-0000-0000-0003", .ACTIVE, none, 1, some 50⟩],
         [⟨2, 1, "dev1", none, none, some 50⟩], [], 3⟩).1.valid,
     (LicenseDevice.validateLicense 100 "AAAA-0000-0000-0003" (some "dev1")
        none none
        ⟨[⟨1, "AAAA-0000-0000-0003", .ACTIVE, none, 1, some 50⟩],
         [⟨2, 1, "dev1", none, none, some 50⟩], [], 3⟩).1.message) =
      (true, "License is valid") := by
  decide

/-- C6 amended: in the bare-counter validateLicense (part_005) a license with
currentActivations ≥ maxActivations that is not revoked, suspended or expired
is invalid with "Maximum activations reached" regardless of the supplied
fingerprint; in the device-activation validateLicense
(license.service.ts) the same message is produced only when a fingerprint is
supplied that matches no existing activation of the license while the number
of activated devices ≥ maxActivations — a matching fingerprint (or an absent
one) validates successfully instead. -/
theorem C6_max_activations :
    (∀ (st : LicenseCounter.LState) (now : Nat) (key : String)
        (fp ip ua : Option String) (lic : LicenseCounter.License),
        st.licenses.find? (fun l => l.licenseKey == key) = some lic →
        lic.status ≠ .REVOKED → lic.status ≠ .SUSPENDED →
        expiresBefore lic.expiresAt now = false →
        lic.currentActivations ≥ lic.maxActivations →
        (LicenseCounter.validateLicense now key fp ip ua st).1 =
          ⟨false, none, "Maximum activations reached"⟩)
    ∧ (∀ (st : LicenseDevice.LState) (now : Nat) (key fp : String)
        (ip ua : Option String) (lic : LicenseDevice.License),
        st.licenses.find? (fun l => l.licenseKey == key) = some lic →
        lic.status ≠ .REVOKED → lic.status ≠ .SUSPENDED →
        expiresBefore lic.expiresAt now = false →
        (st.deviceActivations.filter (fun d => d.licenseId == lic.id)).find?
            (fun d => d.deviceFingerprint == fp) = none →
        (st.deviceActivations.filter (fun d => d.licenseId == lic.id)).length ≥
          lic.maxActivations →
        (LicenseDevice.validateLicense now key (some fp) ip ua st).1 =
          ⟨false, none, "Maximum activations reached"⟩) := by
  constructor
  · intro st now key fp ip ua lic hfind hrev hsusp hexp hmax
    simp [LicenseCounter.validateLicense, hfind, hrev, hsusp, hexp, hmax]
  · intro st now key fp ip ua lic hfind hrev hsusp hexp hnew hmax
    simp [LicenseDevice.validateLicense, hfind, hrev, hsusp, hexp, hnew, hmax]

theorem C6_max_activations_witness :
    ((LicenseCounter.validateLicense 100 "AAAA-0000-0000-0004" (some "devX")
        none none
        ⟨[⟨1, "AAAA-0000-0000-0004", .ACTIVE, none, 1, 1, some 50⟩], []⟩).1 =
      ⟨false, none, "Maximum activations reached"⟩)
    ∧ ((LicenseDevice.validateLicense 100 "AAAA-0000-0000-0005" (some "devY")
        none none
        ⟨[⟨1, "AAAA-0000-0000-0005", .ACTIVE, none, 1, some 50⟩],
         [⟨2, 1, "dev1", none, none, some 50⟩], [], 3⟩).1 =
      ⟨false, none, "Maximum activations reached"⟩) := by
  constructor
  · exact C6_max_activations.1
      ⟨[⟨1, "AAAA-0000-0000-0004", .ACTIVE, none, 1, 1, some 50⟩], []⟩
      100 "AAAA-0000-0000-0004" (some "devX") none none
      ⟨1, "AAAA-0000-0000-0004", .ACTIVE, none, 1, 1, some 50⟩
      (by decide) (by decide) (by decide) (by decide) (by decide)
  · exact C6_max_activations.2
      ⟨[⟨1, "AAAA-0000-0000-0005", .ACTIVE, none, 1, some 50⟩],
       [⟨2, 1, "dev1", none, none, some 50⟩], [], 3⟩
      100 "AAAA-0000-0000-0005" "devY" none none
      ⟨1, "AAAA-0000-0000-0005", .ACTIVE, none, 1, some 50⟩
      (by decide) (by decide) (by decide) (by decide) (by decide) (by decide)

/-- C9: device-level validation is idempotent per fingerprint: on an ACTIVE,
unexpired, non-suspended license, a first validation with a fresh fingerprint
(capacity permitting) creates exactly one DeviceActivation row, and a second
validation with the same fingerprint returns valid "License is valid", only
refreshes that activation's lastSeenAt, touches no license row and consumes
no further activation slot — there is no capacity hypothesis on the second
call, so it succeeds even when the activated-device count already equals
maxActivations. -/
theorem C9_validate_idempotent
    (st : LicenseDevice.LState) (now1 now2 : Nat) (key fp : String)
    (ip1 ua1 ip2 ua2 : Option String) (lic : LicenseDevice.License)
    (hfind : st.licenses.find? (fun l => l.licenseKey == key) = some lic)
    (hstatus : lic.status = .ACTIVE)
    (hexp1 : expiresBefore lic.expiresAt now1 = false)
    (hexp2 : expiresBefore lic.expiresAt now2 = false)
    (hnew : (st.deviceActivations.filter (fun d => d.licenseId == lic.id)).find?
        (fun d => d.deviceFingerprint == fp) = none)
    (hcap : (st.deviceActivations.filter (fun d => d.licenseId == lic.id)).length <
        lic.maxActivations)
    (hfresh : ∀ d ∈ st.deviceActivations, d.id ≠ st.nextId) :
    (LicenseDevice.validateLicense now1 key (some fp) ip1 ua1 st).1.valid = true ∧
    (LicenseDevice.validateLicense now1 key (some fp) ip1 ua1 st).1.message =
      "License is valid" ∧
    (LicenseDevice.validateLicense now1 key (some fp) ip1 ua1 st).2.deviceActivations =
      st.deviceActivations ++ [⟨st.nextId, lic.id, fp, ip1, ua1, none⟩] ∧
    (LicenseDevice.validateLicense now2 key (some fp) ip2 ua2
        (LicenseDevice.validateLicense now1 key (some fp) ip1 ua1 st).2).1.valid =
      true ∧
    (LicenseDevice.validateLicense now2 key (some fp) ip2 ua2
        (LicenseDevice.validateLicense now1 key (some fp) ip1 ua1 st).2).1.message =
      "License is valid" ∧
    (LicenseDevice.validateLicense now2 key (some fp) ip2 ua2
        (LicenseDevice.validateLicense now1 key (some fp) ip1 ua1 st).2).2.deviceActivations =
      st.deviceActivations ++ [⟨st.nextId, lic.id, fp, ip1, ua1, some now2⟩] ∧
    (LicenseDevice.validateLicense now2 key (some fp) ip2 ua2
        (LicenseDevice.validateLicense now1 key (some fp) ip1 ua1 st).2).2.licenses =
      (LicenseDevice.validateLicense now1 key (some fp) ip1 ua1 st).2.licenses := by
  have e1 : LicenseDevice.validateLicense now1 key (some fp) ip1 ua1 st =
      (⟨true, some lic, "License is valid"⟩,
       ⟨if lic.activatedAt = none then
          LicenseDevice.updateLicense lic.id
            (fun l => { l with activatedAt := some now1 }) st.licenses
        else st.licenses,
        st.deviceActivations ++ [⟨st.nextId, lic.id, fp, ip1, ua1, none⟩],
        st.validations ++
          [⟨some lic.id, true, "License is valid", ip1, ua1, some fp⟩],
        st.nextId + 1⟩) := by
    by_cases hact : lic.activatedAt = none <;>
      simp [LicenseDevice.validateLicense, hfind, hstatus, hexp1, hnew,
        Nat.not_le.mpr hcap, hact]
  have hfind2 : ∃ lic2 : LicenseDevice.License,
      (LicenseDevice.validateLicense now1 key (some fp) ip1 ua1
          st).2.licenses.find? (fun l => l.licenseKey == key) = some lic2 ∧
      lic2.status = .ACTIVE ∧ lic2.expiresAt = lic.expiresAt ∧
      lic2.id = lic.id ∧ lic2.maxActivations = lic.maxActivations := by
    rw [e1]
    by_cases hact : lic.activatedAt = none
    · refine ⟨{ lic with activatedAt := some now1 }, ?_, hstatus, rfl, rfl, rfl⟩
      show (if lic.activatedAt = none then
            LicenseDevice.updateLicense lic.id
              (fun l => { l with activatedAt := some now1 }) st.licenses
          else st.licenses).find? (fun l => l.licenseKey == key) =
          some { lic with activatedAt := some now1 }
      rw [if_pos hact]
      unfold LicenseDevice.updateLicense
      rw [find?_map_congr]
      · rw [hfind]
        simp
      · intro a
        by_cases hh : (a.id == lic.id) = true <;> simp [hh]
    · refine ⟨lic, ?_, hstatus, rfl, rfl, rfl⟩
      show (if lic.activatedAt = none then
            LicenseDevice.updateLicense lic.id
              (fun l => { l with activatedAt := some now1 }) st.licenses
          else st.licenses).find? (fun l => l.licenseKey == key) = some lic
      rw [if_neg hact]
      exact hfind
  obtain ⟨lic2, hf2, hs2, he2, hid2, hmax2⟩ := hfind2
  have hfilter : (st.deviceActivations ++
        [(⟨st.nextId, lic.id, fp, ip1, ua1, none⟩ :
          LicenseDevice.DeviceActivation)]).filter
        (fun d => d.licenseId == lic.id) =
      (st.deviceActivations.filter (fun d => d.licenseId == lic.id)) ++
        [⟨st.nextId, lic.id, fp, ip1, ua1, none⟩] := by
    rw [List.filter_append]
    simp
  have hfound : ((st.deviceActivations.filter (fun d => d.licenseId == lic.id)) ++
        [(⟨st.nextId, lic.id, fp, ip1, ua1, none⟩ :
          LicenseDevice.DeviceActivation)]).find?
        (fun d => d.deviceFingerprint == fp) =
      some ⟨st.nextId, lic.id, fp, ip1, ua1, none⟩ := by
    rw [find?_append_none _ _ _ hnew]
    simp
  have hupd : LicenseDevice.updateActivation st.nextId
        (fun d => { d with lastSeenAt := some now2 })
        (st.deviceActivations ++ [⟨st.nextId, lic.id, fp, ip1, ua1, none⟩]) =
      st.deviceActivations ++ [⟨st.nextId, lic.id, fp, ip1, ua1, some now2⟩] := by
    unfold LicenseDevice.updateActivation
    rw [List.map_append]
    congr 1
    · exact map_eq_self_of _ _ (fun a ha => by simp [hfresh a ha])
    · simp
  have e2 : LicenseDevice.validateLicense now2 key (some fp) ip2 ua2
      (LicenseDevice.validateLicense now1 key (some fp) ip1 ua1 st).2 =
      (⟨true, some lic2, "License is valid"⟩,
       ⟨(LicenseDevice.validateLicense now1 key (some fp) ip1 ua1 st).2.licenses,
        st.deviceActivations ++ [⟨st.nextId, lic.id, fp, ip1, ua1, some now2⟩],
        (LicenseDevice.validateLicense now1 key (some fp) ip1 ua1 st).2.validations ++
          [⟨some lic2.id, true, "License is valid", ip2, ua2, some fp⟩],
        (LicenseDevice.validateLicense now1 key (some fp) ip1 ua1 st).2.nextId⟩) := by
    have hda : (LicenseDevice.validateLicense now1 key (some fp) ip1 ua1
        st).2.deviceActivations =
        st.deviceActivations ++ [⟨st.nextId, lic.id, fp, ip1, ua1, none⟩] := by
      rw [e1]
    conv_lhs => rw [LicenseDevice.validateLicense]
    rw [hf2]
    simp only [hs2, he2, hid2, hexp2, hda, hfilter, hfound, hupd]
    simp [hs2, he2, hexp2]
  rw [e1] at e2 ⊢
  rw [e2]
  simp

theorem C9_validate_idempotent_witness :
    ((LicenseDevice.validateLicense 100 "AAAA-0000-0000-0006" (some "dev1")
        none none
        ⟨[⟨1, "AAAA-0000-0000-0006", .ACTIVE, none, 1, none⟩], [], [], 2⟩).1.valid =
      true)
    ∧ ((LicenseDevice.validateLicense 200 "AAAA-0000-0000-0006" (some "dev1")
        none none
        (LicenseDevice.validateLicense 100 "AAAA-0000-0000-0006" (some "dev1")
          none none
          ⟨[⟨1, "AAAA-0000-0000-0006", .ACTIVE, none, 1, none⟩], [], [],
            2⟩).2).1.message = "License is valid")
    ∧ ((LicenseDevice.validateLicense 200 "AAAA-0000-0000-0006" (some "dev1")
        none none
        (LicenseDevice.validateLicense 100 "AAAA-0000-0000-0006" (some "dev1")
          none none
          ⟨[⟨1, "AAAA-0000-0000-0006", .ACTIVE, none, 1, none⟩], [], [],
            2⟩).2).2.deviceActivations =
      [⟨2, 1, "dev1", none, none, some 200⟩]) := by
  have h := C9_validate_idempotent
    ⟨[⟨1, "AAAA-0000-0000-0006", .ACTIVE, none, 1, none⟩], [], [], 2⟩
    100 200 "AAAA-0000-0000-0006" "dev1" none none none none
    ⟨1, "AAAA-0000-0000-0006", .ACTIVE, none, 1, none⟩
    (by decide) rfl (by decide) (by decide) (by decide) (by decide) (by simp)
  exact ⟨h.1, h.2.2.2.2.1, h.2.2.2.2.2.1⟩

/-- C2: when the WebhookEvent row for (source, eventId) is PROCESSING, any
further processWebhook call for that key — whatever work callback it carries
— returns immediately with the non-retryable 409 conflict error
"Webhook is already being processed" and the store exactly as it was: no
WebhookEvent, License or Purchase row is created or mutated and the work
callback's effects never occur. -/
theorem C2_processing_conflict (db : Webhook.Db) (source eventType eid : String)
    (payload : Webhook.PVal) (now : Webhook.Date)
    (processor : Webhook.Db → Except Webhook.WebhookError (Webhook.PVal × Webhook.Db))
    (ex : Webhook.WebhookEventRow)
    (hfind : Webhook.findEvent source eid db.webhookEvents = some ex)
    (hstatus : ex.status = .PROCESSING) :
    Webhook.processWebhook source eventType (some eid) payload now processor db =
      (.error ⟨"Webhook is already being processed", false, 409⟩, db) := by
  simp [Webhook.processWebhook, hfind, hstatus]

theorem C2_processing_conflict_witness :
    Webhook.processWebhook "paddle" "transaction.completed" (some "txn_9")
      (.payload c1Payload) c1Now (fun db => .ok (.payload c1Payload, db)) c2Db =
    (.error ⟨"Webhook is already being processed", false, 409⟩, c2Db) := by
  exact C2_processing_conflict c2Db "paddle" "transaction.completed" "txn_9"
    (.payload c1Payload) c1Now (fun db => .ok (.payload c1Payload, db))
    ⟨0, "paddle", "transaction.completed", some "txn_9", .payload c1Payload,
     .PROCESSING, 1, ⟨2025, 5, 0⟩, none, none⟩
    (by decide) rfl

/-- C1 (code bug): delivering the same (paddle, txn_1) webhook twice in
sequence, with the first delivery completing successfully, creates exactly
one License and one Purchase row in total; the second delivery leaves the
store untouched (so the work callback's effects do not recur) and is flagged
isNewEvent = false — but its result is the STORED REQUEST PAYLOAD
(PVal.payload, spread into the HTTP response), not the first response's
outcome: the COMPLETED update never writes the work result into the payload
slot that the replay branch returns, so the replay carries no license key. -/
theorem C1_duplicate_delivery :
    (Webhook.handleTransactionCompleted c1KeyGen c1Now 1000 c1Fetch c1Render
        c1Payload c1Db0).1 =
      .ok ⟨.outcome ⟨"KEY-2", "ann@example.com", false⟩, true⟩
    ∧ (Webhook.handleTransactionCompleted c1KeyGen c1Now 1000 c1Fetch c1Render
        c1Payload c1Db0).2.licenses.length = 1
    ∧ (Webhook.handleTransactionCompleted c1KeyGen c1Now 1000 c1Fetch c1Render
        c1Payload c1Db0).2.purchases.length = 1
    ∧ (Webhook.handleTransactionCompleted c1KeyGen c1Now 1000 c1Fetch c1Render
        c1Payload
        (Webhook.handleTransactionCompleted c1KeyGen c1Now 1000 c1Fetch c1Render
          c1Payload c1Db0).2).1 =
      .ok ⟨.payload c1Payload, false⟩
    ∧ (Webhook.handleTransactionCompleted c1KeyGen c1Now 1000 c1Fetch c1Render
        c1Payload
        (Webhook.handleTransactionCompleted c1KeyGen c1Now 1000 c1Fetch c1Render
          c1Payload c1Db0).2).2 =
      (Webhook.handleTransactionCompleted c1KeyGen c1Now 1000 c1Fetch c1Render
        c1Payload c1Db0).2 := by
  refine ⟨by decide, by decide, by decide, by decide, by decide⟩

/-- C5 counterexample: a transaction whose line items are a lifetime item
followed by a monthly recurring item yields isLifetime = true and yet a
created license WITH an expiry of now + 1 month — the loop lets a later
recurring item overwrite the expiry cleared by the lifetime item, so "no
expiry regardless of what other items the list contains" is false. -/
theorem C5_license_config_counterexample :
    Webhook.determineLicenseConfig c1Now c5Payload.data =
      ⟨true, some ⟨2025, 6, 0⟩, 5⟩
    ∧ (Webhook.handleTransactionCompleted c1KeyGen c1Now 1000 c1Fetch c1Render
        c5Payload c1Db0).2.licenses.map (fun l => l.expiresAt) =
      [some ⟨2025, 6, 0⟩] := by
  refine ⟨by decide, by decide⟩

namespace Webhook

theorem configStep_lifetime (now : Date) (acc : Bool × Option Date) (it : Item)
    (h : isLifetimeItem it = true) : configStep now acc it = (true, none) := by
  unfold isLifetimeItem at h
  simp only [configStep]
  rw [if_pos (by simpa using h)]

theorem configStep_keep (now : Date) (acc : Bool × Option Date) (it : Item)
    (h1 : isLifetimeItem it = false) (h2 : setsExpiry it = false) :
    configStep now acc it = acc := by
  simp only [configStep]
  rw [if_neg (by unfold isLifetimeItem at h1; simpa using h1)]
  cases hbc : it.billingCycle with
  | none => rfl
  | some obc =>
    cases obc with
    | none => rfl
    | some bc =>
      unfold setsExpiry at h2
      rw [hbc] at h2
      have hy : bc.interval ≠ "year" := by
        intro hcon
        simp [h1, hcon] at h2
      have hm : bc.interval ≠ "month" := by
        intro hcon
        simp [h1, hcon] at h2
      simp [hy, hm]

theorem configStep_set (now : Date) (acc : Bool × Option Date) (it : Item)
    (bc : BillingCycle) (hbc : it.billingCycle = some (some bc))
    (h1 : isLifetimeItem it = false) (hs : setsExpiry it = true) :
    configStep now acc it = (acc.1, applyCycle now bc) := by
  simp only [configStep, applyCycle]
  rw [if_neg (by unfold isLifetimeItem at h1; simpa using h1)]
  rw [hbc]
  by_cases hy : bc.interval = "year"
  · simp [hy]
  · by_cases hm : bc.interval = "month"
    · simp [hy, hm]
    · exfalso
      unfold setsExpiry at hs
      rw [hbc] at hs
      simp [hy, hm] at hs

theorem configStep_fst_true (now : Date) (acc : Bool × Option Date) (it : Item)
    (h : acc.1 = true) : (configStep now acc it).1 = true := by
  simp only [configStep]
  by_cases hc : (strIncludes ((it.productName.map strToLower).getD "") "lifetime"
      || it.billingCycle == some none) = true
  · rw [if_pos hc]
  · rw [if_neg hc]
    cases it.billingCycle with
    | none => exact h
    | some obc =>
      cases obc with
      | none => exact h
      | some bc =>
        dsimp only
        split_ifs <;> simpa using h

theorem configStep_fst_false (now : Date) (acc : Bool × Option Date) (it : Item)
    (h1 : isLifetimeItem it = false) (h : acc.1 = false) :
    (configStep now acc it).1 = false := by
  simp only [configStep]
  rw [if_neg (by unfold isLifetimeItem at h1; simpa using h1)]
  cases it.billingCycle with
  | none => exact h
  | some obc =>
    cases obc with
    | none => exact h
    | some bc =>
      dsimp only
      split_ifs <;> simpa using h

theorem foldl_configStep_none (now : Date) (l : List Item) :
    ∀ acc : Bool × Option Date, (∀ x ∈ l, setsExpiry x = false) →
      acc.2 = none → (l.foldl (configStep now) acc).2 = none := by
  induction l with
  | nil =>
    intro acc _ h2
    simpa using h2
  | cons x t ih =>
    intro acc hl h2
    rw [List.foldl_cons]
    by_cases hx : isLifetimeItem x = true
    · refine ih _ (fun y hy => hl y (by simp [hy])) ?_
      rw [configStep_lifetime now acc x hx]
    · refine ih _ (fun y hy => hl y (by simp [hy])) ?_
      rw [configStep_keep now acc x (by simpa using hx) (hl x (by simp))]
      exact h2

theorem foldl_configStep_fst_true (now : Date) (l : List Item) :
    ∀ acc : Bool × Option Date, acc.1 = true →
      (l.foldl (configStep now) acc).1 = true := by
  induction l with
  | nil =>
    intro acc h
    simpa using h
  | cons x t ih =>
    intro acc h
    rw [List.foldl_cons]
    exact ih _ (configStep_fst_true now acc x h)

theorem foldl_configStep_fst_false (now : Date) (l : List Item) :
    ∀ acc : Bool × Option Date, (∀ x ∈ l, isLifetimeItem x = false) →
      acc.1 = false → (l.foldl (configStep now) acc).1 = false := by
  induction l with
  | nil =>
    intro acc _ h
    simpa using h
  | cons x t ih =>
    intro acc hl h
    rw [List.foldl_cons]
    exact ih _ (fun y hy => hl y (by simp [hy]))
      (configStep_fst_false now acc x (hl x (by simp)) h)

end Webhook

/-- C5 amended: determineLicenseConfig always yields maxActivations 5; if a
lifetime item (product name containing "lifetime", or explicitly null
billing cycle) occurs and no later item is an expiry-setting recurring
(month/year) item, the license configuration has no expiry and
isLifetime = true; for item lists consisting only of recurring month/year
items, the expiry is now + (billing-cycle interval × frequency) of the LAST
item — in general the last expiry-affecting item wins, so a recurring item
after a lifetime item overwrites the cleared expiry. -/
theorem C5_license_config (now : Webhook.Date) :
    (∀ data : Webhook.TxnData,
        (Webhook.determineLicenseConfig now data).maxActivations = 5)
    ∧ (∀ (data : Webhook.TxnData) (l1 l2 : List Webhook.Item)
        (it : Webhook.Item),
        data.items = l1 ++ it :: l2 →
        Webhook.isLifetimeItem it = true →
        (∀ x ∈ l2, Webhook.setsExpiry x = false) →
        (Webhook.determineLicenseConfig now data).expiresAt = none ∧
        (Webhook.determineLicenseConfig now data).isLifetime = true)
    ∧ (∀ (data : Webhook.TxnData) (l3 : List Webhook.Item)
        (xe : Webhook.Item) (bc : Webhook.BillingCycle),
        data.items = l3 ++ [xe] →
        (∀ x ∈ l3 ++ [xe], Webhook.isLifetimeItem x = false ∧
          Webhook.setsExpiry x = true) →
        xe.billingCycle = some (some bc) →
        (Webhook.determineLicenseConfig now data).expiresAt =
          Webhook.applyCycle now bc ∧
        (Webhook.determineLicenseConfig now data).isLifetime = false) := by
  refine ⟨fun data => rfl, ?_, ?_⟩
  · intro data l1 l2 it hitems hlife hl2
    unfold Webhook.determineLicenseConfig
    rw [hitems, List.foldl_append, List.foldl_cons,
      Webhook.configStep_lifetime now _ it hlife]
    exact ⟨Webhook.foldl_configStep_none now l2 (true, none) hl2 rfl,
      Webhook.foldl_configStep_fst_true now l2 (true, none) rfl⟩
  · intro data l3 xe bc hitems hall hbc
    unfold Webhook.determineLicenseConfig
    rw [hitems, List.foldl_append]
    have hxe := hall xe (by simp)
    rw [show List.foldl (Webhook.configStep now)
        (List.foldl (Webhook.configStep now) (false, none) l3) [xe] =
        Webhook.configStep now
          (List.foldl (Webhook.configStep now) (false, none) l3) xe from rfl]
    rw [Webhook.configStep_set now _ xe bc hbc hxe.1 hxe.2]
    refine ⟨rfl, ?_⟩
    exact Webhook.foldl_configStep_fst_false now l3 (false, none)
      (fun y hy => (hall y (by simp [hy])).1) rfl

theorem C5_license_config_witness :
    (Webhook.determineLicenseConfig ⟨2025, 5, 0⟩
        ⟨"t1", "completed", none, [⟨some "AppGrid Lifetime", some none⟩]⟩).expiresAt =
      none
    ∧ (Webhook.determineLicenseConfig ⟨2025, 5, 0⟩
        ⟨"t2", "completed", none,
         [⟨some "AppGrid Monthly", some (some ⟨"month", some 1⟩)⟩]⟩).expiresAt =
      some ⟨2025, 6, 0⟩
    ∧ (Webhook.determineLicenseConfig ⟨2025, 5, 0⟩
        ⟨"t2", "completed", none,
         [⟨some "AppGrid Monthly", some (some ⟨"month", some 1⟩)⟩]⟩).maxActivations =
      5 := by
  have h := C5_license_config ⟨2025, 5, 0⟩
  refine ⟨(h.2.1 _ [] [] ⟨some "AppGrid Lifetime", some none⟩ rfl (by decide)
    (by simp)).1, ?_, h.1 _⟩
  have h3 := (h.2.2 ⟨"t2", "completed", none,
      [⟨some "AppGrid Monthly", some (some ⟨"month", some 1⟩)⟩]⟩
    [] ⟨some "AppGrid Monthly", some (some ⟨"month", some 1⟩)⟩ ⟨"month", some 1⟩
    rfl (by decide) rfl).1
  rw [h3]
  decide

/-- C7: an account-migration request (for a not-yet-migrated account) whose
active entitlements contain no eligible entitlement — none with absent
expires_at and none expiring at least 11 months out — is rejected with the
400 "No eligible purchase found" error and the state is returned unchanged
(no License, User or Migration record is created); otherwise the first
eligible entitlement encountered wins: it determines the subscription-type
label (lifetime for no expiry, annual otherwise) and the created license's
expiry, recorded in the response and in the single license row appended. -/
theorem C7_migration_eligibility :
    (∀ (st : RevenueCat.RCState) (keyGen : Nat → String) (now : Int)
        (emailOk : Bool) (email userId : String)
        (ents : List RevenueCat.Entitlement),
        st.migrations.find? (fun m => m.revenueCatUserId == userId) = none →
        RevenueCat.checkEligibility now ents = .ineligible →
        RevenueCat.migrate keyGen now emailOk email userId ents st =
          (.err 400 "No eligible purchase found. Only lifetime and annual subscriptions can be migrated.",
           st))
    ∧ (∀ (now : Int) (pre rest : List RevenueCat.Entitlement)
        (e : RevenueCat.Entitlement),
        (∀ x ∈ pre, RevenueCat.entEligible now x = false) →
        RevenueCat.entEligible now e = true →
        RevenueCat.checkEligibility now (pre ++ e :: rest) =
          (match e.expiresAt with
           | none => RevenueCat.Eligibility.lifetime
           | some x => RevenueCat.Eligibility.annual x))
    ∧ (∀ (st : RevenueCat.RCState) (keyGen : Nat → String) (now : Int)
        (emailOk : Bool) (email userId : String)
        (ents : List RevenueCat.Entitlement),
        st.migrations.find? (fun m => m.revenueCatUserId == userId) = none →
        RevenueCat.checkEligibility now ents = .lifetime →
        ∃ lk : String,
          (RevenueCat.migrate keyGen now emailOk email userId ents st).1 =
            .ok false (some "lifetime") lk email userId none emailOk ∧
          ∃ newLic : RevenueCat.RCLicense,
            (RevenueCat.migrate keyGen now emailOk email userId ents st).2.licenses =
              st.licenses ++ [newLic] ∧
            newLic.expiresAt = none ∧ newLic.subscriptionType = "lifetime" ∧
            newLic.licenseKey = lk ∧ newLic.maxActivations = 5)
    ∧ (∀ (st : RevenueCat.RCState) (keyGen : Nat → String) (now expMs : Int)
        (emailOk : Bool) (email userId : String)
        (ents : List RevenueCat.Entitlement),
        st.migrations.find? (fun m => m.revenueCatUserId == userId) = none →
        RevenueCat.checkEligibility now ents = .annual expMs →
        ∃ lk : String,
          (RevenueCat.migrate keyGen now emailOk email userId ents st).1 =
            .ok false (some "annual") lk email userId (some expMs) emailOk ∧
          ∃ newLic : RevenueCat.RCLicense,
            (RevenueCat.migrate keyGen now emailOk email userId ents st).2.licenses =
              st.licenses ++ [newLic] ∧
            newLic.expiresAt = some expMs ∧ newLic.subscriptionType = "annual" ∧
            newLic.licenseKey = lk ∧ newLic.maxActivations = 5) := by
  refine ⟨?_, ?_, ?_, ?_⟩
  · intro st keyGen now emailOk email userId ents hmig helig
    simp [RevenueCat.migrate, hmig, helig]
  · intro now pre rest e
    induction pre with
    | nil =>
      intro _ he
      cases hexp : e.expiresAt with
      | none => simp [RevenueCat.checkEligibility, hexp]
      | some x =>
        have he2 : (11 : ℚ) ≤ ((x - now : Int) : ℚ) / (1000 * 60 * 60 * 24 * 30) := by
          unfold RevenueCat.entEligible at he
          rw [hexp] at he
          simpa using he
        have hform : ((x : ℚ) - (now : ℚ)) = ((x - now : Int) : ℚ) := by push_cast; ring
        show RevenueCat.checkEligibility now (e :: rest) = _
        unfold RevenueCat.checkEligibility
        rw [hexp]
        dsimp only
        rw [if_pos he2]
    | cons y t ih =>
      intro hpre he
      have hy := hpre y (by simp)
      cases hyexp : y.expiresAt with
      | none =>
        unfold RevenueCat.entEligible at hy
        rw [hyexp] at hy
        simp at hy
      | some ye =>
        have hy2 : ¬ (11 : ℚ) ≤ ((ye - now : Int) : ℚ) / (1000 * 60 * 60 * 24 * 30) := by
          unfold RevenueCat.entEligible at hy
          rw [hyexp] at hy
          simpa using hy
        rw [List.cons_append]
        show RevenueCat.checkEligibility now (y :: (t ++ e :: rest)) = _
        unfold RevenueCat.checkEligibility
        rw [hyexp]
        dsimp only
        rw [if_neg hy2]
        exact ih (fun x hx => hpre x (by simp [hx])) he
  · intro st keyGen now emailOk email userId ents hmig helig
    cases huser : st.users.find? (fun u => u.email == email) with
    | none =>
      refine ⟨keyGen (st.nextId + 1), ?_, ?_⟩
      · simp [RevenueCat.migrate, hmig, helig, huser]
      · refine ⟨⟨st.nextId + 1, st.nextId, keyGen (st.nextId + 1), none, 5,
          some ("Migrated from RevenueCat user: " ++ userId ++ " (" ++
            "lifetime" ++ ")"), "lifetime", userId⟩, ?_, rfl, rfl, rfl, rfl⟩
        simp [RevenueCat.migrate, hmig, helig, huser]
    | some u =>
      refine ⟨keyGen st.nextId, ?_, ?_⟩
      · simp [RevenueCat.migrate, hmig, helig, huser]
      · refine ⟨⟨st.nextId, u.id, keyGen st.nextId, none, 5,
          some ("Migrated from RevenueCat user: " ++ userId ++ " (" ++
            "lifetime" ++ ")"), "lifetime", userId⟩, ?_, rfl, rfl, rfl, rfl⟩
        simp [RevenueCat.migrate, hmig, helig, huser]
  · intro st keyGen now expMs emailOk email userId ents hmig helig
    cases huser : st.users.find? (fun u => u.email == email) with
    | none =>
      refine ⟨keyGen (st.nextId + 1), ?_, ?_⟩
      · simp [RevenueCat.migrate, hmig, helig, huser]
      · refine ⟨⟨st.nextId + 1, st.nextId, keyGen (st.nextId + 1), some expMs, 5,
          some ("Migrated from RevenueCat user: " ++ userId ++ " (" ++
            "annual" ++ ")"), "annual", userId⟩, ?_, rfl, rfl, rfl, rfl⟩
        simp [RevenueCat.migrate, hmig, helig, huser]
    | some u =>
      refine ⟨keyGen st.nextId, ?_, ?_⟩
      · simp [RevenueCat.migrate, hmig, helig, huser]
      · refine ⟨⟨st.nextId, u.id, keyGen st.nextId, some expMs, 5,
          some ("Migrated from RevenueCat user: " ++ userId ++ " (" ++
            "annual" ++ ")"), "annual", userId⟩, ?_, rfl, rfl, rfl, rfl⟩
        simp [RevenueCat.migrate, hmig, helig, huser]

theorem C7_migration_eligibility_witness :
    RevenueCat.migrate (fun n => "K" ++ toString n) 0 true "mig@example.com"
      "rc_user_1" [⟨some 7776000000⟩] ⟨[], [], [], 0⟩ =
      (.err 400 "No eligible purchase found. Only lifetime and annual subscriptions can be migrated.",
       ⟨[], [], [], 0⟩)
    ∧ ∃ lk : String,
        (RevenueCat.migrate (fun n => "K" ++ toString n) 0 true "mig@example.com"
          "rc_user_2" [⟨some 7776000000⟩, ⟨none⟩] ⟨[], [], [], 0⟩).1 =
          .ok false (some "lifetime") lk "mig@example.com" "rc_user_2" none true := by
  constructor
  · exact C7_migration_eligibility.1 ⟨[], [], [], 0⟩ (fun n => "K" ++ toString n)
      0 true "mig@example.com" "rc_user_1" [⟨some 7776000000⟩] rfl
      (by simp [RevenueCat.checkEligibility]; norm_num)
  · obtain ⟨lk, hresp, _⟩ := C7_migration_eligibility.2.2.1 ⟨[], [], [], 0⟩
      (fun n => "K" ++ toString n) 0 true "mig@example.com" "rc_user_2"
      [⟨some 7776000000⟩, ⟨none⟩] rfl
      (by simp [RevenueCat.checkEligibility]; norm_num)
    exact ⟨lk, hresp⟩

end AppGrid
